import Mathlib

/-!
# SQL Coach — verification of the session state machine

Shallow embedding of `src/sql_coach.py` (the interactive SQL tutor).  The
curriculum literal, the progress record, the session state and the command
dispatcher `handle_command` are translated directly from the source.  The
query executor (`execute_sql`, backed by sqlite) and the presentation layer
(ANSI boxes, tables) are external collaborators: the executor is a parameter
`Executor`, and rendering is modelled by a list of structured `Event` payloads
describing exactly which box/printout each code path emits (color codes and
box drawing are elided as pure presentation).

Python strings are modelled as Lean `String`s (lists of characters).  The
Python operations used by the source (`str.lower`, `str.strip`,
`str.rstrip(';')`, `re.sub(r'\s+', ' ', _)`, substring `in`, `startswith`,
slicing) are defined below on `List Char`/`String`.  `str.lower` is modelled
by ASCII lowercasing (`Char.toLower`), and the whitespace class by the six
ASCII whitespace characters — all strings occurring in the program and the
curriculum are ASCII, where these agree with Python's Unicode-aware versions.
-/

namespace SqlCoach

/-- Python's whitespace class (`\s` of `re`, `str.strip`), ASCII fragment:
space, tab, newline, carriage return, vertical tab, form feed. -/
def isPyWs (c : Char) : Bool :=
  c == ' ' || c == '\t' || c == '\n' || c == '\r' || c == '\x0b' || c == '\x0c'

/-- `str.lstrip()` on a character list. -/
def lstripWs (l : List Char) : List Char := l.dropWhile isPyWs

/-- `str.rstrip()` on a character list. -/
def rstripWs (l : List Char) : List Char := (l.reverse.dropWhile isPyWs).reverse

/-- `str.strip()` on a character list: drop leading and trailing whitespace. -/
def pyStripList (l : List Char) : List Char := rstripWs (lstripWs l)

/-- `str.rstrip(';')` on a character list: drop all trailing semicolons. -/
def rstripSemi (l : List Char) : List Char :=
  (l.reverse.dropWhile (fun c => c == ';')).reverse

/-- Worker for `re.sub(r'\s+', ' ', _)`: the flag records whether we are
inside a whitespace run (whose single replacement space was already
emitted). -/
def collapseAux : Bool → List Char → List Char
  | _, [] => []
  | inRun, c :: rest =>
      if isPyWs c then
        if inRun then collapseAux true rest
        else ' ' :: collapseAux true rest
      else c :: collapseAux false rest

/-- `re.sub(r'\s+', ' ', _)`: replace every maximal whitespace run by one
space. -/
def collapseWs (l : List Char) : List Char := collapseAux false l

/-- `str.lower()` (ASCII). -/
def pyLower (s : String) : String := ⟨s.data.map Char.toLower⟩

/-- `str.strip()`. -/
def pyStrip (s : String) : String := ⟨pyStripList s.data⟩

/-- `needle in hay` for Python strings, on character lists. -/
def listIsInfix (needle : List Char) : List Char → Bool
  | [] => needle.isEmpty
  | c :: rest => needle.isPrefixOf (c :: rest) || listIsInfix needle rest

/-- `needle in hay` for Python strings. -/
def isSubstring (needle hay : String) : Bool := listIsInfix needle.data hay.data

/-- `s.startswith(pre)`. -/
def strStartsWith (s pre : String) : Bool := pre.data.isPrefixOf s.data

/-- `s[n:]` (character-based slicing, as in Python). -/
def strDrop (s : String) (n : Nat) : String := ⟨s.data.drop n⟩

/-- `SQLCoach.normalize_sql`:
`re.sub(r'\s+', ' ', sql.lower().strip().rstrip(';'))`. -/
def normalize_sql (sql : String) : String :=
  ⟨collapseWs (rstripSemi (pyStripList (sql.data.map Char.toLower)))⟩


/-! ## Data model: curriculum, progress, session -/

/-- One curriculum lesson (an entry of a phase's `lessons` list in the
`CURRICULUM` literal).  `follow_up` is optional because the code reads it
with `lesson.get('follow_up', 'Try the next lesson!')`. -/
structure Lesson where
  id : String
  title : String
  concept : String
  challenge : String
  hints : List String
  solution_steps : List String
  answer : String
  follow_up : Option String
deriving DecidableEq

/-- One curriculum phase (an entry of `CURRICULUM["phases"]`). -/
structure Phase where
  id : Nat
  title : String
  description : String
  lessons : List Lesson
deriving DecidableEq

/-- Lesson 1.1 of the curriculum literal in the source. -/
def lesson_1_1 : Lesson where
  id := "1.1"
  title := "SELECT & FROM - Your Starting Point"
  concept := "Every SQL query starts here. SELECT defines WHAT you want to see.\nFROM defines WHERE the data lives.\n\n{cyan}Key syntax:{reset}\n  SELECT column1, column2 FROM table_name;\n  SELECT * FROM table_name;  -- all columns\n\n{yellow}BigQuery Tip:{reset} SELECT * costs money! Always select only columns you need.\n\n{green}Google Ads Context:{reset} You\x27ll pull from performance tables like campaigns,\nad_groups, ad_performance_daily constantly."
  challenge := "Show me all campaign names and their bidding strategies from the campaigns table."
  hints := [
    "You need SELECT and FROM - two keywords",
    "The columns you want are: campaign_name, bidding_strategy",
    "The table is: campaigns"]
  solution_steps := [
    "SELECT",
    "SELECT campaign_name, bidding_strategy",
    "SELECT campaign_name, bidding_strategy FROM campaigns;"]
  answer := "SELECT campaign_name, bidding_strategy FROM campaigns;"
  follow_up := some "Try: Show only SEARCH type campaigns (you\x27ll need WHERE)"

/-- Lesson 1.2 of the curriculum literal in the source. -/
def lesson_1_2 : Lesson where
  id := "1.2"
  title := "WHERE - Filtering Rows"
  concept := "WHERE filters individual rows BEFORE any grouping happens.\n\n{cyan}Common operators:{reset}\n  =, !=, <, >, <=, >=\n  BETWEEN, IN, LIKE\n  IS NULL, IS NOT NULL\n  AND, OR, NOT\n\n{red}Interview Trap:{reset} You CANNOT use column aliases from SELECT in WHERE!\n  {dim}-- WRONG: SELECT cost_micros/1000000 AS cost_usd WHERE cost_usd > 10{reset}\n  {green}-- RIGHT: SELECT cost_micros/1000000 AS cost_usd WHERE cost_micros > 10000000{reset}\n\n{yellow}Why?{reset} WHERE executes BEFORE SELECT in the query execution order."
  challenge := "Find all ad performance rows where device is \x27MOBILE\x27 and impressions are greater than 20000."
  hints := [
    "Start with SELECT * FROM ad_performance_daily",
    "Add WHERE with two conditions",
    "Use AND to combine: device = \x27MOBILE\x27 AND impressions > 20000",
    "String values need quotes: \x27MOBILE\x27"]
  solution_steps := [
    "SELECT * FROM ad_performance_daily",
    "SELECT * FROM ad_performance_daily WHERE device = \x27MOBILE\x27",
    "SELECT * FROM ad_performance_daily WHERE device = \x27MOBILE\x27 AND impressions > 20000;"]
  answer := "SELECT * FROM ad_performance_daily WHERE device = \x27MOBILE\x27 AND impressions > 20000;"
  follow_up := some "Try: Find search terms with clicks but ZERO conversions (wasted spend)"

/-- Lesson 1.3 of the curriculum literal in the source. -/
def lesson_1_3 : Lesson where
  id := "1.3"
  title := "ORDER BY & LIMIT"
  concept := "ORDER BY sorts results. LIMIT restricts row count.\n\n{cyan}Syntax:{reset}\n  ORDER BY column ASC   -- ascending (default)\n  ORDER BY column DESC  -- descending\n  LIMIT 10              -- first 10 rows\n\n{green}Interview Pattern:{reset} \"Find the top N...\" = ORDER BY + LIMIT\n\n{yellow}BigQuery Tip:{reset} Always use LIMIT when exploring large tables - saves cost!\n\n{magenta}Key Insight:{reset} ORDER BY runs AFTER SELECT, so you CAN use aliases here!\n  SELECT cost_micros/1000000 AS cost_usd ... ORDER BY cost_usd DESC  {green}-- WORKS!{reset}"
  challenge := "Show the top 5 ad performance rows by clicks (highest first). Include date, campaign_id, clicks, and cost_micros."
  hints := [
    "SELECT specific columns, not *",
    "ORDER BY clicks DESC for highest first",
    "Add LIMIT 5 at the end"]
  solution_steps := [
    "SELECT date, campaign_id, clicks, cost_micros",
    "SELECT date, campaign_id, clicks, cost_micros FROM ad_performance_daily",
    "SELECT date, campaign_id, clicks, cost_micros FROM ad_performance_daily ORDER BY clicks DESC",
    "SELECT date, campaign_id, clicks, cost_micros FROM ad_performance_daily ORDER BY clicks DESC LIMIT 5;"]
  answer := "SELECT date, campaign_id, clicks, cost_micros FROM ad_performance_daily ORDER BY clicks DESC LIMIT 5;"
  follow_up := some "Try converting cost_micros to dollars (divide by 1000000) and alias it"

/-- Lesson 1.4 of the curriculum literal in the source. -/
def lesson_1_4 : Lesson where
  id := "1.4"
  title := "Execution Order - The Key Insight"
  concept := "SQL does NOT execute top-to-bottom. Understanding this prevents bugs!\n\n{cyan}Logical Execution Order:{reset}\n  1. FROM / JOIN    {dim}\u2190 tables loaded first{reset}\n  2. WHERE          {dim}\u2190 filter individual rows{reset}\n  3. GROUP BY       {dim}\u2190 group remaining rows{reset}\n  4. HAVING         {dim}\u2190 filter groups{reset}\n  5. SELECT         {dim}\u2190 compute columns + aliases{reset}\n  6. DISTINCT       {dim}\u2190 remove duplicates{reset}\n  7. ORDER BY       {dim}\u2190 sort (CAN use aliases){reset}\n  8. LIMIT          {dim}\u2190 restrict rows{reset}\n\n{yellow}Mnemonic:{reset} \"From Where Groups Have Selected Distinct Ordered Limits\"\n\n{green}This explains:{reset}\n  \u2022 Aliases don\x27t work in WHERE (SELECT hasn\x27t run yet)\n  \u2022 Aliases DO work in ORDER BY (runs after SELECT)\n  \u2022 HAVING exists separately from WHERE (needs aggregated values)"
  challenge := "Calculate cost in USD (cost_micros / 1000000) as cost_usd, then ORDER BY cost_usd descending. Limit to 5 rows."
  hints := [
    "Create an alias: cost_micros / 1000000.0 AS cost_usd",
    "You can use the alias in ORDER BY",
    "Include date and campaign_id for context"]
  solution_steps := [
    "SELECT date, campaign_id, cost_micros / 1000000.0 AS cost_usd",
    "SELECT date, campaign_id, cost_micros / 1000000.0 AS cost_usd FROM ad_performance_daily",
    "SELECT date, campaign_id, cost_micros / 1000000.0 AS cost_usd FROM ad_performance_daily ORDER BY cost_usd DESC",
    "SELECT date, campaign_id, cost_micros / 1000000.0 AS cost_usd FROM ad_performance_daily ORDER BY cost_usd DESC LIMIT 5;"]
  answer := "SELECT date, campaign_id, cost_micros / 1000000.0 AS cost_usd FROM ad_performance_daily ORDER BY cost_usd DESC LIMIT 5;"
  follow_up := some "Notice you CAN use cost_usd in ORDER BY. Try using it in WHERE and see why it fails."

/-- Phase 1 of the curriculum literal in the source. -/
def phase_1 : Phase where
  id := 1
  title := "Foundations"
  description := "SELECT, FROM, WHERE, ORDER BY, LIMIT - the building blocks"
  lessons := [lesson_1_1, lesson_1_2, lesson_1_3, lesson_1_4]

/-- Lesson 2.1 of the curriculum literal in the source. -/
def lesson_2_1 : Lesson where
  id := "2.1"
  title := "Aggregate Functions"
  concept := "Aggregates collapse multiple rows into a single value.\n\n{cyan}Core Functions:{reset}\n  COUNT(*)      -- count all rows (including NULLs)\n  COUNT(col)    -- count non-NULL values\n  SUM(col)      -- total\n  AVG(col)      -- average\n  MIN(col)      -- smallest\n  MAX(col)      -- largest\n\n{red}NULL Trap:{reset} AVG ignores NULLs!\n  If you have [10, NULL, 20], AVG = 15 (not 10)\n\n{green}Google Ads Use:{reset}\n  \"What\x27s total spend?\" \u2192 SUM(cost_micros)\n  \"Average CTR?\" \u2192 AVG(clicks * 100.0 / impressions)"
  challenge := "Calculate the total impressions, total clicks, and total cost in USD across ALL rows in ad_performance_daily."
  hints := [
    "Use SUM() for each metric",
    "No GROUP BY needed - you want one total across everything",
    "Divide cost_micros by 1000000.0 for USD",
    "Use AS to create readable column names"]
  solution_steps := [
    "SELECT SUM(impressions)",
    "SELECT SUM(impressions) AS total_impressions, SUM(clicks) AS total_clicks",
    "SELECT SUM(impressions) AS total_impressions, SUM(clicks) AS total_clicks, SUM(cost_micros) / 1000000.0 AS total_cost_usd",
    "SELECT SUM(impressions) AS total_impressions, SUM(clicks) AS total_clicks, SUM(cost_micros) / 1000000.0 AS total_cost_usd FROM ad_performance_daily;"]
  answer := "SELECT SUM(impressions) AS total_impressions, SUM(clicks) AS total_clicks, SUM(cost_micros) / 1000000.0 AS total_cost_usd FROM ad_performance_daily;"
  follow_up := some "Add AVG(clicks) as avg_clicks to see average per row"

/-- Lesson 2.2 of the curriculum literal in the source. -/
def lesson_2_2 : Lesson where
  id := "2.2"
  title := "GROUP BY - Aggregating by Category"
  concept := "GROUP BY splits rows into buckets, then aggregates within each.\n\n{cyan}The Golden Rule:{reset}\nEvery column in SELECT must either be:\n  1. In the GROUP BY clause, OR\n  2. Inside an aggregate function\n\n{red}WRONG:{reset}\n  SELECT campaign_id, ad_group_id, SUM(clicks)\n  FROM ... GROUP BY campaign_id\n  {dim}-- ad_group_id isn\x27t grouped or aggregated!{reset}\n\n{green}RIGHT:{reset}\n  SELECT campaign_id, SUM(clicks)\n  FROM ... GROUP BY campaign_id\n\n{yellow}Ad Tech Pattern:{reset}\n  GROUP BY campaign_id  -- metrics per campaign\n  GROUP BY device       -- mobile vs desktop\n  GROUP BY date         -- daily trends"
  challenge := "For each campaign_id, show the total impressions, total clicks, and total cost in USD."
  hints := [
    "SELECT campaign_id and your aggregates",
    "Use SUM() for each metric",
    "GROUP BY campaign_id at the end"]
  solution_steps := [
    "SELECT campaign_id",
    "SELECT campaign_id, SUM(impressions) AS total_impressions",
    "SELECT campaign_id, SUM(impressions) AS total_impressions, SUM(clicks) AS total_clicks, SUM(cost_micros) / 1000000.0 AS total_cost_usd",
    "SELECT campaign_id, SUM(impressions) AS total_impressions, SUM(clicks) AS total_clicks, SUM(cost_micros) / 1000000.0 AS total_cost_usd FROM ad_performance_daily",
    "SELECT campaign_id, SUM(impressions) AS total_impressions, SUM(clicks) AS total_clicks, SUM(cost_micros) / 1000000.0 AS total_cost_usd FROM ad_performance_daily GROUP BY campaign_id;"]
  answer := "SELECT campaign_id, SUM(impressions) AS total_impressions, SUM(clicks) AS total_clicks, SUM(cost_micros) / 1000000.0 AS total_cost_usd FROM ad_performance_daily GROUP BY campaign_id;"
  follow_up := some "Try grouping by campaign_id AND device to see breakdown by device"

/-- Lesson 2.3 of the curriculum literal in the source. -/
def lesson_2_3 : Lesson where
  id := "2.3"
  title := "HAVING - Filtering After Aggregation"
  concept := "HAVING filters GROUPS. WHERE filters ROWS.\n\n{cyan}The Difference:{reset}\n  WHERE  = \"only look at rows where...\"      {dim}(before grouping){reset}\n  HAVING = \"only show groups where...\"       {dim}(after grouping){reset}\n\n{green}Classic Interview Question:{reset}\n\"Show campaigns that spent more than $10K total\"\n\n  {red}WHERE cost_micros > 10000000000{reset}\n  {dim}\u2190 filters individual ROWS over $10K each{reset}\n\n  {green}HAVING SUM(cost_micros) > 10000000000{reset}\n  {dim}\u2190 filters GROUPS whose TOTAL is over $10K{reset}\n\n{yellow}Key Insight:{reset} HAVING can use aggregate functions, WHERE cannot."
  challenge := "Show campaigns where total clicks exceed 2000. Display campaign_id, total clicks, and total cost in USD."
  hints := [
    "First write a GROUP BY query for campaign metrics",
    "Add HAVING after GROUP BY",
    "HAVING SUM(clicks) > 2000"]
  solution_steps := [
    "SELECT campaign_id, SUM(clicks) AS total_clicks, SUM(cost_micros) / 1000000.0 AS total_cost_usd FROM ad_performance_daily GROUP BY campaign_id",
    "SELECT campaign_id, SUM(clicks) AS total_clicks, SUM(cost_micros) / 1000000.0 AS total_cost_usd FROM ad_performance_daily GROUP BY campaign_id HAVING SUM(clicks) > 2000;"]
  answer := "SELECT campaign_id, SUM(clicks) AS total_clicks, SUM(cost_micros) / 1000000.0 AS total_cost_usd FROM ad_performance_daily GROUP BY campaign_id HAVING SUM(clicks) > 2000;"
  follow_up := some "Add WHERE device = \x27MOBILE\x27 to filter rows BEFORE grouping, keep HAVING"

/-- Phase 2 of the curriculum literal in the source. -/
def phase_2 : Phase where
  id := 2
  title := "Aggregation & GROUP BY"
  description := "COUNT, SUM, AVG, GROUP BY, HAVING - analyzing data at scale"
  lessons := [lesson_2_1, lesson_2_2, lesson_2_3]

/-- Lesson 3.1 of the curriculum literal in the source. -/
def lesson_3_1 : Lesson where
  id := "3.1"
  title := "INNER JOIN - Matching Rows Only"
  concept := "INNER JOIN returns only rows that match in BOTH tables.\n\n{cyan}Syntax:{reset}\n  SELECT a.col, b.col\n  FROM table_a a\n  INNER JOIN table_b b ON a.key = b.key\n\n{green}Google Ads Use:{reset}\nJoin campaigns to ad_performance_daily to get campaign names alongside metrics.\n\n{red}Pitfall:{reset} If join key has duplicates, you get row multiplication!\n  {dim}1 campaign row + 5 performance rows = 5 result rows{reset}\n  This is expected, but be aware of it.\n\n{yellow}Pro Tip:{reset} Always use table aliases (c, p, ag) - cleaner and required\nwhen column names overlap."
  challenge := "Join campaigns to ad_performance_daily to show campaign_name, date, clicks, and cost_micros for each performance row."
  hints := [
    "Start with FROM ad_performance_daily p",
    "JOIN campaigns c ON matching campaign_id",
    "Select: c.campaign_name, p.date, p.clicks, p.cost_micros"]
  solution_steps := [
    "SELECT c.campaign_name, p.date, p.clicks, p.cost_micros",
    "SELECT c.campaign_name, p.date, p.clicks, p.cost_micros FROM ad_performance_daily p",
    "SELECT c.campaign_name, p.date, p.clicks, p.cost_micros FROM ad_performance_daily p INNER JOIN campaigns c ON p.campaign_id = c.campaign_id;"]
  answer := "SELECT c.campaign_name, p.date, p.clicks, p.cost_micros FROM ad_performance_daily p INNER JOIN campaigns c ON p.campaign_id = c.campaign_id;"
  follow_up := some "Add GROUP BY c.campaign_name and aggregate to see totals per campaign name"

/-- Lesson 3.2 of the curriculum literal in the source. -/
def lesson_3_2 : Lesson where
  id := "3.2"
  title := "LEFT JOIN - Keep All Left Rows"
  concept := "LEFT JOIN keeps ALL rows from the left table.\nIf no match exists in right table, right columns are NULL.\n\n{green}Why It Matters:{reset}\n\"Show me ALL campaigns, even those with no performance data.\"\n\nCampaign 4 (YouTube_Awareness) is PAUSED - may have no performance rows.\n  INNER JOIN would drop it\n  LEFT JOIN keeps it with NULLs for performance columns\n\n{red}CLASSIC TRAP:{reset} Filtering right table in WHERE turns LEFT into INNER!\n\n  {red}WRONG{reset} (drops non-matching rows):\n  SELECT * FROM campaigns c\n  LEFT JOIN ad_performance_daily p ON c.campaign_id = p.campaign_id\n  WHERE p.device = \x27MOBILE\x27\n\n  {green}RIGHT{reset} (filter in ON clause):\n  SELECT * FROM campaigns c\n  LEFT JOIN ad_performance_daily p ON c.campaign_id = p.campaign_id\n    AND p.device = \x27MOBILE\x27"
  challenge := "Show ALL campaigns (including those with no performance data) with their total clicks. Use COALESCE to show 0 instead of NULL."
  hints := [
    "Start FROM campaigns (left table keeps all rows)",
    "LEFT JOIN ad_performance_daily",
    "Use COALESCE(SUM(p.clicks), 0) to replace NULL with 0",
    "GROUP BY c.campaign_name"]
  solution_steps := [
    "SELECT c.campaign_name FROM campaigns c",
    "SELECT c.campaign_name FROM campaigns c LEFT JOIN ad_performance_daily p ON c.campaign_id = p.campaign_id",
    "SELECT c.campaign_name, COALESCE(SUM(p.clicks), 0) AS total_clicks FROM campaigns c LEFT JOIN ad_performance_daily p ON c.campaign_id = p.campaign_id",
    "SELECT c.campaign_name, COALESCE(SUM(p.clicks), 0) AS total_clicks FROM campaigns c LEFT JOIN ad_performance_daily p ON c.campaign_id = p.campaign_id GROUP BY c.campaign_name;"]
  answer := "SELECT c.campaign_name, COALESCE(SUM(p.clicks), 0) AS total_clicks FROM campaigns c LEFT JOIN ad_performance_daily p ON c.campaign_id = p.campaign_id GROUP BY c.campaign_name;"
  follow_up := some "Which campaigns show 0? Why does LEFT JOIN matter vs INNER?"

/-- Lesson 3.3 of the curriculum literal in the source. -/
def lesson_3_3 : Lesson where
  id := "3.3"
  title := "Multi-Table JOINs"
  concept := "Chain joins to connect 3+ tables. Very common in interviews!\n\n{cyan}Pattern:{reset}\nStart from fact table (ad_performance_daily), join dimension tables.\n\n  SELECT c.campaign_name, ag.ad_group_name, SUM(p.clicks)\n  FROM ad_performance_daily p\n  JOIN campaigns c ON p.campaign_id = c.campaign_id\n  JOIN ad_groups ag ON p.ad_group_id = ag.ad_group_id\n  GROUP BY c.campaign_name, ag.ad_group_name\n\n{yellow}Pro Tips:{reset}\n  \u2022 Always use table aliases - cleaner and often required\n  \u2022 Think about grain: what\x27s each row in your result?\n  \u2022 JOIN order usually doesn\x27t matter for results (optimizer handles it)"
  challenge := "Write a 3-table join: Show campaign_name, ad_group_name, total impressions, total clicks, and total conversions for each ad group."
  hints := [
    "FROM ad_performance_daily p (fact table)",
    "JOIN campaigns c ON campaign_id",
    "JOIN ad_groups ag ON ad_group_id",
    "GROUP BY c.campaign_name, ag.ad_group_name",
    "SUM the metrics"]
  solution_steps := [
    "SELECT c.campaign_name, ag.ad_group_name",
    "SELECT c.campaign_name, ag.ad_group_name, SUM(p.impressions) AS total_impr, SUM(p.clicks) AS total_clicks, SUM(p.conversions) AS total_conv",
    "SELECT c.campaign_name, ag.ad_group_name, SUM(p.impressions) AS total_impr, SUM(p.clicks) AS total_clicks, SUM(p.conversions) AS total_conv FROM ad_performance_daily p",
    "SELECT c.campaign_name, ag.ad_group_name, SUM(p.impressions) AS total_impr, SUM(p.clicks) AS total_clicks, SUM(p.conversions) AS total_conv FROM ad_performance_daily p JOIN campaigns c ON p.campaign_id = c.campaign_id JOIN ad_groups ag ON p.ad_group_id = ag.ad_group_id",
    "SELECT c.campaign_name, ag.ad_group_name, SUM(p.impressions) AS total_impr, SUM(p.clicks) AS total_clicks, SUM(p.conversions) AS total_conv FROM ad_performance_daily p JOIN campaigns c ON p.campaign_id = c.campaign_id JOIN ad_groups ag ON p.ad_group_id = ag.ad_group_id GROUP BY c.campaign_name, ag.ad_group_name;"]
  answer := "SELECT c.campaign_name, ag.ad_group_name, SUM(p.impressions) AS total_impr, SUM(p.clicks) AS total_clicks, SUM(p.conversions) AS total_conv FROM ad_performance_daily p JOIN campaigns c ON p.campaign_id = c.campaign_id JOIN ad_groups ag ON p.ad_group_id = ag.ad_group_id GROUP BY c.campaign_name, ag.ad_group_name;"
  follow_up := some "Add CTR column: SUM(clicks) * 100.0 / SUM(impressions) AS ctr"

/-- Phase 3 of the curriculum literal in the source. -/
def phase_3 : Phase where
  id := 3
  title := "JOINs"
  description := "INNER, LEFT, multi-table - combining data across tables"
  lessons := [lesson_3_1, lesson_3_2, lesson_3_3]

/-- Lesson 4.1 of the curriculum literal in the source. -/
def lesson_4_1 : Lesson where
  id := "4.1"
  title := "Window Functions - The TSC III Separator"
  concept := "Window functions compute values across related rows WITHOUT collapsing them.\n\n{cyan}Syntax:{reset}\n  function() OVER (PARTITION BY col ORDER BY col)\n\n{cyan}Key Functions:{reset}\n  ROW_NUMBER() -- unique sequential (1,2,3,4), arbitrary tie-breaking\n  RANK()       -- ties share rank, gaps after (1,2,2,4)\n  DENSE_RANK() -- ties share rank, no gaps (1,2,2,3)\n\n{yellow}PARTITION BY{reset} = like GROUP BY but keeps all rows\n{yellow}ORDER BY{reset} = defines ranking order within each partition\n\n{green}Google Ads Use:{reset}\n  \"Rank campaigns by spend\"\n  \"Find top ad group per campaign\"\n  \"Number rows for deduplication\" "
  challenge := "For each row in ad_performance_daily, rank by clicks within each campaign_id (highest first). Show campaign_id, date, device, clicks, and rank."
  hints := [
    "Use RANK() OVER (...)",
    "PARTITION BY campaign_id",
    "ORDER BY clicks DESC",
    "Give the rank an alias like click_rank"]
  solution_steps := [
    "SELECT campaign_id, date, device, clicks",
    "SELECT campaign_id, date, device, clicks, RANK() OVER (...) AS click_rank",
    "SELECT campaign_id, date, device, clicks, RANK() OVER (PARTITION BY campaign_id ORDER BY clicks DESC) AS click_rank",
    "SELECT campaign_id, date, device, clicks, RANK() OVER (PARTITION BY campaign_id ORDER BY clicks DESC) AS click_rank FROM ad_performance_daily;"]
  answer := "SELECT campaign_id, date, device, clicks, RANK() OVER (PARTITION BY campaign_id ORDER BY clicks DESC) AS click_rank FROM ad_performance_daily;"
  follow_up := some "Change RANK to ROW_NUMBER and DENSE_RANK - observe how ties differ"

/-- Lesson 4.2 of the curriculum literal in the source. -/
def lesson_4_2 : Lesson where
  id := "4.2"
  title := "LAG/LEAD & Running Totals"
  concept := "Compare rows to previous/next rows in sequence.\n\n{cyan}Functions:{reset}\n  LAG(col, n)  -- previous nth row\x27s value\n  LEAD(col, n) -- next nth row\x27s value\n\n{green}Google Ads Use:{reset} \"Compare today\x27s clicks to yesterday\x27s\"\n\n{cyan}Running Totals:{reset}\n  SUM() OVER (ORDER BY date ROWS BETWEEN UNBOUNDED PRECEDING AND CURRENT ROW)\n\n{yellow}Frame Clauses:{reset}\n  ROWS BETWEEN UNBOUNDED PRECEDING AND CURRENT ROW = cumulative sum\n  ROWS BETWEEN 6 PRECEDING AND CURRENT ROW = 7-day rolling window"
  challenge := "For campaign_id = 1, show date, daily total clicks, and previous day\x27s clicks using LAG. First aggregate by date, then apply LAG."
  hints := [
    "Use a CTE or subquery to first get daily totals",
    "Filter WHERE campaign_id = 1",
    "GROUP BY date to get daily totals",
    "Then apply LAG(daily_clicks, 1) OVER (ORDER BY date)"]
  solution_steps := [
    "First get daily totals: SELECT date, SUM(clicks) AS daily_clicks FROM ad_performance_daily WHERE campaign_id = 1 GROUP BY date",
    "Wrap in CTE: WITH daily AS (SELECT date, SUM(clicks) AS daily_clicks FROM ad_performance_daily WHERE campaign_id = 1 GROUP BY date)",
    "Add LAG: WITH daily AS (...) SELECT date, daily_clicks, LAG(daily_clicks, 1) OVER (ORDER BY date) AS prev_day_clicks FROM daily",
    "WITH daily AS (SELECT date, SUM(clicks) AS daily_clicks FROM ad_performance_daily WHERE campaign_id = 1 GROUP BY date) SELECT date, daily_clicks, LAG(daily_clicks, 1) OVER (ORDER BY date) AS prev_day_clicks FROM daily ORDER BY date;"]
  answer := "WITH daily AS (SELECT date, SUM(clicks) AS daily_clicks FROM ad_performance_daily WHERE campaign_id = 1 GROUP BY date) SELECT date, daily_clicks, LAG(daily_clicks, 1) OVER (ORDER BY date) AS prev_day_clicks FROM daily ORDER BY date;"
  follow_up := some "Add day-over-day change: daily_clicks - LAG(...)"

/-- Lesson 4.3 of the curriculum literal in the source. -/
def lesson_4_3 : Lesson where
  id := "4.3"
  title := "CTEs - Clean, Readable Queries"
  concept := "CTE (Common Table Expression) = WITH clause. Named temporary result set.\n\n{cyan}Syntax:{reset}\n  WITH my_cte AS (\n    SELECT ... FROM ... WHERE ...\n  )\n  SELECT * FROM my_cte;\n\n{green}Why Use CTEs:{reset}\n  1. Readability - break complex queries into named steps\n  2. Reuse - reference the CTE multiple times\n  3. Interview gold - shows organized thinking\n\n{cyan}Chaining CTEs:{reset}\n  WITH step1 AS (...),\n       step2 AS (SELECT ... FROM step1)\n  SELECT * FROM step2;\n\n{yellow}Pro Tip:{reset} In interviews, START with CTEs. Shows structured thinking."
  challenge := "Use a CTE to calculate total spend and conversions per campaign, then calculate cost per conversion (CPA). Join to campaigns for the name."
  hints := [
    "Create CTE: WITH campaign_metrics AS (SELECT campaign_id, SUM(cost_micros)/1000000.0 AS total_cost_usd, SUM(conversions) AS total_conversions FROM ad_performance_daily GROUP BY campaign_id)",
    "In main query, JOIN to campaigns",
    "Calculate CPA: total_cost_usd / total_conversions",
    "Use CASE WHEN to avoid divide by zero"]
  solution_steps := [
    "WITH campaign_metrics AS (SELECT campaign_id, SUM(cost_micros) / 1000000.0 AS total_cost_usd, SUM(conversions) AS total_conversions FROM ad_performance_daily GROUP BY campaign_id)",
    "WITH campaign_metrics AS (...) SELECT c.campaign_name, cm.total_cost_usd, cm.total_conversions FROM campaign_metrics cm JOIN campaigns c ON cm.campaign_id = c.campaign_id",
    "WITH campaign_metrics AS (SELECT campaign_id, SUM(cost_micros) / 1000000.0 AS total_cost_usd, SUM(conversions) AS total_conversions FROM ad_performance_daily GROUP BY campaign_id) SELECT c.campaign_name, cm.total_cost_usd, cm.total_conversions, CASE WHEN cm.total_conversions > 0 THEN ROUND(cm.total_cost_usd / cm.total_conversions, 2) ELSE NULL END AS cpa FROM campaign_metrics cm JOIN campaigns c ON cm.campaign_id = c.campaign_id ORDER BY cpa;"]
  answer := "WITH campaign_metrics AS (SELECT campaign_id, SUM(cost_micros) / 1000000.0 AS total_cost_usd, SUM(conversions) AS total_conversions FROM ad_performance_daily GROUP BY campaign_id) SELECT c.campaign_name, cm.total_cost_usd, cm.total_conversions, CASE WHEN cm.total_conversions > 0 THEN ROUND(cm.total_cost_usd / cm.total_conversions, 2) ELSE NULL END AS cpa FROM campaign_metrics cm JOIN campaigns c ON cm.campaign_id = c.campaign_id ORDER BY cpa;"
  follow_up := some "Add a second CTE for search term waste (terms with 0 conversions)"

/-- Phase 4 of the curriculum literal in the source. -/
def phase_4 : Phase where
  id := 4
  title := "Window Functions & CTEs"
  description := "ROW_NUMBER, RANK, LAG/LEAD, WITH clauses - advanced patterns"
  lessons := [lesson_4_1, lesson_4_2, lesson_4_3]

/-- The CURRICULUM constant: ordered phases, each with ordered lessons. -/
def CURRICULUM : List Phase := [phase_1, phase_2, phase_3, phase_4]

/-- `get_lesson_by_id`: iterate phases in order, lessons in order, return the
first lesson whose `id` matches, together with its phase (`None, None`
becomes `none`). -/
def findLessonIn : List Phase → String → Option (Lesson × Phase)
  | [], _ => none
  | phase :: rest, lessonId =>
      match phase.lessons.find? (fun l => l.id == lessonId) with
      | some l => some (l, phase)
      | none => findLessonIn rest lessonId

/-- `get_lesson_by_id(lesson_id)`. -/
def get_lesson_by_id (lessonId : String) : Option (Lesson × Phase) :=
  findLessonIn CURRICULUM lessonId

/-- The flat list `all_lessons` of lesson ids built by `get_next_lesson_id`
(phase order, then lesson order within the phase). -/
def idsOf : List Phase → List String
  | [] => []
  | phase :: rest => phase.lessons.map Lesson.id ++ idsOf rest

/-- All lesson ids in curriculum order. -/
def allLessonIds : List String := idsOf CURRICULUM

/-- All lessons in curriculum order. -/
def allLessons : List Lesson := (CURRICULUM.map Phase.lessons).flatten

/-- `all_lessons.index(current_id)` followed by taking element `idx + 1`:
the element right after the first occurrence, if any.  (`list.index` finds
the first occurrence; `ValueError` becomes `none`.) -/
def nextIn : List String → String → Option String
  | [], _ => none
  | x :: rest, cur => if x == cur then rest.head? else nextIn rest cur

/-- `get_next_lesson_id(current_id)`. -/
def get_next_lesson_id (currentId : String) : Option String :=
  nextIn allLessonIds currentId

/-- `get_total_lessons()`. -/
def get_total_lessons : Nat := (CURRICULUM.map (fun p => p.lessons.length)).sum


/-! ## Progress, session state, executor, render payloads -/

/-- The persisted progress record (`progress.json`).  `hint_counts` is a
mapping lesson id → count; the program only ever reads/writes it as a whole,
so an association list suffices. -/
structure Progress where
  current_lesson : String
  completed_lessons : List String
  hint_counts : List (String × Nat)
  started_at : String
deriving DecidableEq

/-- The default record built by `load_progress` when no file exists
(first run); `now` stands for `datetime.now().isoformat()`. -/
def default_progress (now : String) : Progress where
  current_lesson := "1.1"
  completed_lessons := []
  hint_counts := []
  started_at := now

/-- The in-memory `SQLCoach` object: durable progress plus the transient
session cursors (`current_hint`, `current_step`) and `last_query`. -/
structure Coach where
  progress : Progress
  current_hint : Nat
  current_step : Nat
  last_query : Option String
deriving DecidableEq

/-- `SQLCoach.__init__`: load progress, cursors at 0, no last query. -/
def initCoach (p : Progress) : Coach where
  progress := p
  current_hint := 0
  current_step := 0
  last_query := none

/-- Result of a successful `execute_sql` call: column names and rows
(cell values as rendered strings). -/
structure QueryResult where
  columns : List String
  rows : List (List String)
deriving DecidableEq

/-- The query executor collaborator: `execute_sql` returns either an error
message string or columns+rows. -/
abbrev Executor := String → Except String QueryResult

/-- The clause keywords recognized by `explain_execution_order`, in the fixed
order in which the function renders them. -/
inductive Clause where
  | cte | fromClause | joinClause | whereClause | groupBy
  | having | selectClause | distinct | orderBy | limit
deriving DecidableEq

/-- The substring pattern `explain_execution_order` searches for, per clause
(note the trailing space on seven of the ten patterns, exactly as in the
source: `"with "`, `"from "`, `"join "`, `"where "`, `"group by"`,
`"having "`, `"select "`, `"distinct"`, `"order by"`, `"limit "`). -/
def clausePattern : Clause → String
  | Clause.cte => "with "
  | Clause.fromClause => "from "
  | Clause.joinClause => "join "
  | Clause.whereClause => "where "
  | Clause.groupBy => "group by"
  | Clause.having => "having "
  | Clause.selectClause => "select "
  | Clause.distinct => "distinct"
  | Clause.orderBy => "order by"
  | Clause.limit => "limit "

/-- The fixed rendering order of `explain_execution_order`. -/
def clauseOrder : List Clause :=
  [Clause.cte, Clause.fromClause, Clause.joinClause, Clause.whereClause,
   Clause.groupBy, Clause.having, Clause.selectClause, Clause.distinct,
   Clause.orderBy, Clause.limit]

/-- `explain_execution_order(sql)`: lowercase the query, test each clause
pattern by substring search, and emit the clauses present in the fixed
order (the sequential `if has_...:` blocks of the source). -/
def executionSteps (sql : String) : List Clause :=
  let l := pyLower sql
  (if isSubstring "with " l then [Clause.cte] else []) ++
  (if isSubstring "from " l then [Clause.fromClause] else []) ++
  (if isSubstring "join " l then [Clause.joinClause] else []) ++
  (if isSubstring "where " l then [Clause.whereClause] else []) ++
  (if isSubstring "group by" l then [Clause.groupBy] else []) ++
  (if isSubstring "having " l then [Clause.having] else []) ++
  (if isSubstring "select " l then [Clause.selectClause] else []) ++
  (if isSubstring "distinct" l then [Clause.distinct] else []) ++
  (if isSubstring "order by" l then [Clause.orderBy] else []) ++
  (if isSubstring "limit " l then [Clause.limit] else [])

/-- Generic form of the clause rendering: walk an ordered clause list and
keep those whose pattern occurs in the (already lowercased) query. -/
def clauseSteps (l : String) : List Clause → List Clause
  | [] => []
  | c :: rest => (if isSubstring (clausePattern c) l then [c] else []) ++ clauseSteps l rest

/-- Structured render payloads: one constructor per kind of output the
program prints.  Colors, box drawing and the static texts of banner, schema,
tables and help are presentation detail; the payload records which box is
shown and the data it carries. -/
inductive Event where
  | errorBox (msg : String)
  | successBox (msg : String)
  | hintBox (num total : Nat) (text : String)
  | stepBox (num total : Nat) (text : String)
  | answerBox (ans : String)
  | tableView (columns : List String) (rows : List (List String))
  | info (msg : String)
  | explainView (steps : List Clause)
  | schemaView
  | tablesView
  | helpView
  | progressView (completed total : Nat) (completedIds : List String) (currentId : String)
  | lessonView (phaseId : Nat) (lessonId : String) (completed total : Nat)
  | screenCleared
  | banner
  | saved (p : Progress)
deriving DecidableEq

/-- The success-box message of the answer-match branch
(`print_success_box(f"Perfect! ...")`), carrying the lesson's follow-up via
`lesson.get('follow_up', 'Try the next lesson!')`. -/
def matchedMsg (followUp : String) : String :=
  "Perfect! That matches the expected solution!\n\nFollow-up: " ++ followUp

/-- `show_current_lesson`: resolve the current lesson; on failure print the
"Lesson not found!" error box and change nothing; on success reset both
cursors to 0 and render the lesson (progress bar, phase/lesson header,
concept, challenge — collapsed into one `lessonView` payload). -/
def show_current_lesson (st : Coach) : Coach × List Event :=
  match get_lesson_by_id st.progress.current_lesson with
  | none => (st, [Event.errorBox "Lesson not found!"])
  | some (lesson, phase) =>
      ({ st with current_hint := 0, current_step := 0 },
       [Event.lessonView phase.id lesson.id
          st.progress.completed_lessons.length get_total_lessons])

/-- The DML/DQL keywords of the implicit-SQL heuristic at the end of
`handle_command`. -/
def sqlKeywords : List String := ["select", "with", "insert", "update", "delete"]

/-- The `run <sql>` branch of `handle_command`: store the raw submitted SQL
in `last_query`, execute it, render the error box or the result table, and on
success additionally compare normalized SQL against the current lesson's
normalized answer, rendering the success box (with follow-up) on a match. -/
def runOk (st : Coach) (sql : String) (res : QueryResult)
    (lessonOpt : Option (Lesson × Phase)) : Coach × List Event × Bool :=
  match lessonOpt with
  | some (lesson, _) =>
      if normalize_sql sql = normalize_sql lesson.answer then
        ({ st with last_query := some sql },
         [Event.info "Query executed successfully!",
          Event.tableView res.columns res.rows,
          Event.successBox
            (matchedMsg (lesson.follow_up.getD "Try the next lesson!"))], true)
      else
        ({ st with last_query := some sql },
         [Event.info "Query executed successfully!",
          Event.tableView res.columns res.rows], true)
  | none =>
      ({ st with last_query := some sql },
       [Event.info "Query executed successfully!",
        Event.tableView res.columns res.rows], true)

/-- The `run <sql>` branch continued (see module doc above): dispatch on the
executor outcome; `runOk` is the success half. -/
def runBranch (exec : Executor) (st : Coach) (sql : String)
    (lessonOpt : Option (Lesson × Phase)) : Coach × List Event × Bool :=
  match exec sql with
  | Except.error e =>
      ({ st with last_query := some sql },
       [Event.errorBox ("SQL Error:\n" ++ e)], true)
  | Except.ok res => runOk st sql res lessonOpt

/-- The `hint` branch: silently no-op without a lesson; otherwise reveal
`hints[current_hint]` and advance the cursor, or report exhaustion without
moving it. -/
def hintBranch (st : Coach) (lessonOpt : Option (Lesson × Phase)) :
    Coach × List Event × Bool :=
  match lessonOpt with
  | none => (st, [], true)
  | some (lesson, _) =>
      if st.current_hint < lesson.hints.length then
        ({ st with current_hint := st.current_hint + 1 },
         [Event.hintBox (st.current_hint + 1) lesson.hints.length
            (lesson.hints.getD st.current_hint "")], true)
      else
        (st, [Event.info "No more hints! Type \x27answer\x27 to see the solution."], true)

/-- The `next` branch: reveal `solution_steps[current_step]` and advance, or
render the full answer once the steps are exhausted. -/
def nextBranch (st : Coach) (lessonOpt : Option (Lesson × Phase)) :
    Coach × List Event × Bool :=
  match lessonOpt with
  | none => (st, [], true)
  | some (lesson, _) =>
      if st.current_step < lesson.solution_steps.length then
        ({ st with current_step := st.current_step + 1 },
         [Event.stepBox (st.current_step + 1) lesson.solution_steps.length
            (lesson.solution_steps.getD st.current_step "")], true)
      else
        (st, [Event.info "No more steps! Here\x27s the full solution:",
              Event.answerBox lesson.answer], true)

/-- The new `completed_lessons` list built by the `skip` branch: append the
lesson id unless it is already present. -/
def completedAfterSkip (completed : List String) (lessonId : String) : List String :=
  if lessonId ∈ completed then completed else completed ++ [lessonId]

/-- The `skip` branch: with a resolvable lesson, record its id in
`completed_lessons` (if not already there), then either advance to the next
lesson id — persisting and re-rendering, which resets the cursors — or, on
the last lesson, only render the completion box (no save, no cursor
reset). -/
def skipLesson (st : Coach) (lesson : Lesson) : Coach × List Event × Bool :=
  match get_next_lesson_id lesson.id with
  | some nextId =>
      ((show_current_lesson
          { st with progress :=
              { st.progress with
                current_lesson := nextId,
                completed_lessons :=
                  completedAfterSkip st.progress.completed_lessons lesson.id } }).1,
       [Event.saved
          { st.progress with
            current_lesson := nextId,
            completed_lessons :=
              completedAfterSkip st.progress.completed_lessons lesson.id },
        Event.screenCleared, Event.banner] ++
       (show_current_lesson
          { st with progress :=
              { st.progress with
                current_lesson := nextId,
                completed_lessons :=
                  completedAfterSkip st.progress.completed_lessons lesson.id } }).2,
       true)
  | none =>
      ({ st with progress :=
          { st.progress with
            completed_lessons :=
              completedAfterSkip st.progress.completed_lessons lesson.id } },
       [Event.successBox "Congratulations! You\x27ve completed all lessons!"], true)

/-- Dispatch of the `skip` branch on the resolved lesson. -/
def skipBranch (st : Coach) (lessonOpt : Option (Lesson × Phase)) :
    Coach × List Event × Bool :=
  match lessonOpt with
  | none => (st, [], true)
  | some (lesson, _) => skipLesson st lesson

/-- The `lesson <id>` branch: jump to a resolvable lesson id (persist and
re-render, resetting cursors), or report it as not found with no state
change. -/
def gotoBranch (st : Coach) (lessonId : String) : Coach × List Event × Bool :=
  match get_lesson_by_id lessonId with
  | some _ =>
      ((show_current_lesson
          { st with progress := { st.progress with current_lesson := lessonId } }).1,
       [Event.saved { st.progress with current_lesson := lessonId },
        Event.screenCleared, Event.banner] ++
       (show_current_lesson
          { st with progress := { st.progress with current_lesson := lessonId } }).2,
       true)
  | none =>
      (st, [Event.errorBox ("Lesson \x27" ++ lessonId ++
        "\x27 not found. Use format like \x271.2\x27 or \x273.1\x27")], true)

/-- The `clear`/`cls` branch: clear the screen, print the banner and
re-render the current lesson (which resets both cursors when it
resolves). -/
def clearBranch (st : Coach) : Coach × List Event × Bool :=
  ((show_current_lesson st).1,
   [Event.screenCleared, Event.banner] ++ (show_current_lesson st).2, true)

/-- The implicit-SQL fallback branch: treat the whole (stripped) input as a
query — store it in `last_query`, execute, render error box or result table.
Note: unlike `runBranch` it performs no answer comparison. -/
def bareSqlBranch (exec : Executor) (st : Coach) (cmd : String) :
    Coach × List Event × Bool :=
  match exec cmd with
  | Except.error e =>
      ({ st with last_query := some cmd },
       [Event.errorBox ("SQL Error:\n" ++ e)], true)
  | Except.ok res =>
      ({ st with last_query := some cmd },
       [Event.info "Query executed!",
        Event.tableView res.columns res.rows], true)

/-- `SQLCoach.handle_command(cmd)`: one step of the command loop.  Returns
the new coach state, the rendered payloads in order, and the `True`/`False`
continue flag.  Each branch mirrors the corresponding `if` of the source, in
source order.  (`cmd = cmd.strip()` and `cmd_lower = cmd.lower()` of the
source are inlined as `pyStrip input` / `pyLower (pyStrip input)`.) -/
def handle_command (exec : Executor) (st : Coach) (input : String) :
    Coach × List Event × Bool :=
  if pyStrip input = "" then (st, [], true)
  -- Run SQL: `run <sql>`
  else if strStartsWith (pyLower (pyStrip input)) "run " then
    runBranch exec st (pyStrip (strDrop (pyStrip input) 4))
      (get_lesson_by_id st.progress.current_lesson)
  -- Hint
  else if pyLower (pyStrip input) = "hint" ∨ pyLower (pyStrip input) = "stuck" ∨
      pyLower (pyStrip input) = "help me" then
    hintBranch st (get_lesson_by_id st.progress.current_lesson)
  -- Next step
  else if pyLower (pyStrip input) = "next" then
    nextBranch st (get_lesson_by_id st.progress.current_lesson)
  -- Full answer
  else if pyLower (pyStrip input) = "answer" ∨ pyLower (pyStrip input) = "solution" then
    match get_lesson_by_id st.progress.current_lesson with
    | some (lesson, _) => (st, [Event.answerBox lesson.answer], true)
    | none => (st, [], true)
  -- Explain execution
  else if pyLower (pyStrip input) = "explain" then
    match st.last_query with
    | some q => (st, [Event.explainView (executionSteps q)], true)
    | none =>
        (st, [Event.info
          "Run a query first, then type \x27explain\x27 to see execution order."], true)
  -- Schema
  else if pyLower (pyStrip input) = "schema" then (st, [Event.schemaView], true)
  -- Tables list
  else if pyLower (pyStrip input) = "tables" then (st, [Event.tablesView], true)
  -- Skip lesson
  else if pyLower (pyStrip input) = "skip" then
    skipBranch st (get_lesson_by_id st.progress.current_lesson)
  -- Go to specific lesson
  else if strStartsWith (pyLower (pyStrip input)) "lesson " then
    gotoBranch st (pyStrip (strDrop (pyStrip input) 7))
  -- Progress
  else if pyLower (pyStrip input) = "progress" then
    (st, [Event.progressView st.progress.completed_lessons.length get_total_lessons
            st.progress.completed_lessons st.progress.current_lesson], true)
  -- Reset
  else if pyLower (pyStrip input) = "reset" then
    ({ st with current_hint := 0, current_step := 0 },
     [Event.info "Lesson progress reset. Hints and steps start from beginning."], true)
  -- Help
  else if pyLower (pyStrip input) = "help" ∨ pyLower (pyStrip input) = "?" then
    (st, [Event.helpView], true)
  -- Clear
  else if pyLower (pyStrip input) = "clear" ∨ pyLower (pyStrip input) = "cls" then
    clearBranch st
  -- Quit
  else if pyLower (pyStrip input) = "quit" ∨ pyLower (pyStrip input) = "exit" ∨
      pyLower (pyStrip input) = "q" then
    (st, [Event.saved st.progress, Event.info "Progress saved! See you next time."],
     false)
  -- Unknown command - try as SQL
  else if sqlKeywords.any (fun kw => isSubstring kw (pyLower (pyStrip input))) then
    bareSqlBranch exec st (pyStrip input)
  else
    (st, [Event.info "Unknown command. Type \x27help\x27 for available commands."], true)

/-- Fold a whole run of commands through `handle_command` (the interactive
loop, ignoring the continue flag, which only decides when the loop stops). -/
def runCommands (exec : Executor) (st : Coach) : List String → Coach
  | [] => st
  | c :: rest => runCommands exec (handle_command exec st c).1 rest

/-- The progress snapshots persisted (`save_progress`) among a list of
render payloads, in order. -/
def savedSnapshots (evs : List Event) : List Progress :=
  evs.filterMap (fun e => match e with | Event.saved p => some p | _ => none)

/-- Does any payload in the list announce an answer match / success box? -/
def hasSuccessBox (evs : List Event) : Bool :=
  evs.any (fun e => match e with | Event.successBox _ => true | _ => false)


/-! ## Auxiliary definitions used by the verification -/

/-- A canonical-form check for outputs of `collapseWs`: every whitespace
character is a single space and no two spaces are adjacent (the flag records
whether the previous character was a space). -/
def canonAux : Bool → List Char → Bool
  | _, [] => true
  | prevSpace, c :: rest =>
      if c == ' ' then !prevSpace && canonAux true rest
      else !isPyWs c && canonAux false rest

/-- Is the sequence of `solution_steps` non-decreasing in string length
(adjacent pairs compared)? -/
def stepsNonDecr (l : Lesson) : Bool :=
  ((l.solution_steps.map String.length).zip
    (l.solution_steps.map String.length).tail).all (fun ab => ab.1 ≤ ab.2)

/-- The clause detection exactly as worded in the claim/spec: bare keywords
(`with`, `from`, `join`, `where`, `group by`, `having`, `select`,
`distinct`, `order by`, `limit`) searched case-insensitively as substrings —
to be compared with `executionSteps`, which is translated from the code and
requires a trailing space on seven of the patterns. -/
def executionStepsClaim (sql : String) : List Clause :=
  (if isSubstring "with" (pyLower sql) then [Clause.cte] else []) ++
  (if isSubstring "from" (pyLower sql) then [Clause.fromClause] else []) ++
  (if isSubstring "join" (pyLower sql) then [Clause.joinClause] else []) ++
  (if isSubstring "where" (pyLower sql) then [Clause.whereClause] else []) ++
  (if isSubstring "group by" (pyLower sql) then [Clause.groupBy] else []) ++
  (if isSubstring "having" (pyLower sql) then [Clause.having] else []) ++
  (if isSubstring "select" (pyLower sql) then [Clause.selectClause] else []) ++
  (if isSubstring "distinct" (pyLower sql) then [Clause.distinct] else []) ++
  (if isSubstring "order by" (pyLower sql) then [Clause.orderBy] else []) ++
  (if isSubstring "limit" (pyLower sql) then [Clause.limit] else [])

/-- The guard under which `handle_command` reaches the implicit-SQL fallback:
not blank, not any fixed command, and containing a DML/DQL keyword. -/
abbrev isBareSql (input : String) : Prop :=
  ¬ (pyStrip input = "") ∧
  ¬ (strStartsWith (pyLower (pyStrip input)) "run " = true) ∧
  ¬ (pyLower (pyStrip input) = "hint" ∨ pyLower (pyStrip input) = "stuck" ∨
     pyLower (pyStrip input) = "help me") ∧
  ¬ (pyLower (pyStrip input) = "next") ∧
  ¬ (pyLower (pyStrip input) = "answer" ∨ pyLower (pyStrip input) = "solution") ∧
  ¬ (pyLower (pyStrip input) = "explain") ∧
  ¬ (pyLower (pyStrip input) = "schema") ∧
  ¬ (pyLower (pyStrip input) = "tables") ∧
  ¬ (pyLower (pyStrip input) = "skip") ∧
  ¬ (strStartsWith (pyLower (pyStrip input)) "lesson " = true) ∧
  ¬ (pyLower (pyStrip input) = "progress") ∧
  ¬ (pyLower (pyStrip input) = "reset") ∧
  ¬ (pyLower (pyStrip input) = "help" ∨ pyLower (pyStrip input) = "?") ∧
  ¬ (pyLower (pyStrip input) = "clear" ∨ pyLower (pyStrip input) = "cls") ∧
  ¬ (pyLower (pyStrip input) = "quit" ∨ pyLower (pyStrip input) = "exit" ∨
     pyLower (pyStrip input) = "q") ∧
  (sqlKeywords.any (fun kw => isSubstring kw (pyLower (pyStrip input)))) = true

/-- The commands that reset the session cursors without necessarily changing
the current lesson id: `reset`, `clear`/`cls`, and `lesson <id>` (a goto to
the current lesson re-renders it, resetting cursors with the id
unchanged). -/
abbrev isCursorReset (input : String) : Prop :=
  pyLower (pyStrip input) = "reset" ∨ pyLower (pyStrip input) = "clear" ∨
  pyLower (pyStrip input) = "cls" ∨
  strStartsWith (pyLower (pyStrip input)) "lesson " = true

/-- An executor that always succeeds with an empty result set (used to
instantiate theorems at concrete inputs). -/
def execAlwaysOk : Executor := fun _ => Except.ok ⟨[], []⟩

/-- An executor that always fails (used to instantiate theorems at concrete
inputs). -/
def execAlwaysErr : Executor := fun _ => Except.error "no such table: t"

/-- A fresh coach on first run: default progress at lesson "1.1". -/
def coach0 : Coach := initCoach (default_progress "2024-01-01T00:00:00")

/-- A coach whose current lesson is the last lesson "4.3". -/
def coachLast : Coach :=
  initCoach { default_progress "2024-01-01T00:00:00" with current_lesson := "4.3" }

/-- A coach whose persisted current lesson id does not resolve (corrupted
progress file). -/
def coachBad : Coach :=
  initCoach { default_progress "2024-01-01T00:00:00" with current_lesson := "9.9" }

/-- A coach at lesson "1.1" that has already consumed one hint. -/
def coachHinted : Coach := { coach0 with current_hint := 1 }

/-- A coach at lesson "1.1" whose hint cursor has reached the number of
hints of lesson "1.1" (three). -/
def coachHintsDone : Coach := { coach0 with current_hint := 3 }

/-- A coach with a stored last query. -/
def coachWithQuery : Coach := { coach0 with last_query := some "select 1 limit" }


/-! ## Dispatch equations and case analysis for `handle_command`

One equation per branch of the command dispatcher, each guarded by the
branch's condition and the negations of all earlier conditions, followed by
a case-analysis principle quantifying over the branch outcomes. -/

theorem hc_eq_empty (exec : Executor) (st : Coach) (input : String)
    (h1 : pyStrip input = "") :
    handle_command exec st input =
      (st, [], true) := by
  unfold handle_command; rw [if_pos h1]

theorem hc_eq_run (exec : Executor) (st : Coach) (input : String)
    (h1 : ¬ (pyStrip input = ""))
    (h2 : strStartsWith (pyLower (pyStrip input)) "run " = true) :
    handle_command exec st input =
      runBranch exec st (pyStrip (strDrop (pyStrip input) 4))
        (get_lesson_by_id st.progress.current_lesson) := by
  unfold handle_command; rw [if_neg h1, if_pos h2]

theorem hc_eq_hint (exec : Executor) (st : Coach) (input : String)
    (h1 : ¬ (pyStrip input = ""))
    (h2 : ¬ (strStartsWith (pyLower (pyStrip input)) "run " = true))
    (h3 : pyLower (pyStrip input) = "hint" ∨ pyLower (pyStrip input) = "stuck" ∨
      pyLower (pyStrip input) = "help me") :
    handle_command exec st input =
      hintBranch st (get_lesson_by_id st.progress.current_lesson) := by
  unfold handle_command; rw [if_neg h1, if_neg h2, if_pos h3]

theorem hc_eq_next (exec : Executor) (st : Coach) (input : String)
    (h1 : ¬ (pyStrip input = ""))
    (h2 : ¬ (strStartsWith (pyLower (pyStrip input)) "run " = true))
    (h3 : ¬ (pyLower (pyStrip input) = "hint" ∨ pyLower (pyStrip input) = "stuck" ∨
      pyLower (pyStrip input) = "help me"))
    (h4 : pyLower (pyStrip input) = "next") :
    handle_command exec st input =
      nextBranch st (get_lesson_by_id st.progress.current_lesson) := by
  unfold handle_command; rw [if_neg h1, if_neg h2, if_neg h3, if_pos h4]

theorem hc_eq_answer (exec : Executor) (st : Coach) (input : String)
    (h1 : ¬ (pyStrip input = ""))
    (h2 : ¬ (strStartsWith (pyLower (pyStrip input)) "run " = true))
    (h3 : ¬ (pyLower (pyStrip input) = "hint" ∨ pyLower (pyStrip input) = "stuck" ∨
      pyLower (pyStrip input) = "help me"))
    (h4 : ¬ (pyLower (pyStrip input) = "next"))
    (h5 : pyLower (pyStrip input) = "answer" ∨ pyLower (pyStrip input) = "solution") :
    handle_command exec st input =
      (match get_lesson_by_id st.progress.current_lesson with
       | some (lesson, _) => (st, [Event.answerBox lesson.answer], true)
       | none => (st, [], true)) := by
  unfold handle_command; rw [if_neg h1, if_neg h2, if_neg h3, if_neg h4, if_pos h5]

theorem hc_eq_explain (exec : Executor) (st : Coach) (input : String)
    (h1 : ¬ (pyStrip input = ""))
    (h2 : ¬ (strStartsWith (pyLower (pyStrip input)) "run " = true))
    (h3 : ¬ (pyLower (pyStrip input) = "hint" ∨ pyLower (pyStrip input) = "stuck" ∨
      pyLower (pyStrip input) = "help me"))
    (h4 : ¬ (pyLower (pyStrip input) = "next"))
    (h5 : ¬ (pyLower (pyStrip input) = "answer" ∨ pyLower (pyStrip input) = "solution"))
    (h6 : pyLower (pyStrip input) = "explain") :
    handle_command exec st input =
      (match st.last_query with
       | some q => (st, [Event.explainView (executionSteps q)], true)
       | none =>
           (st, [Event.info
             "Run a query first, then type \x27explain\x27 to see execution order."], true)) := by
  unfold handle_command; rw [if_neg h1, if_neg h2, if_neg h3, if_neg h4, if_neg h5, if_pos h6]

theorem hc_eq_schema (exec : Executor) (st : Coach) (input : String)
    (h1 : ¬ (pyStrip input = ""))
    (h2 : ¬ (strStartsWith (pyLower (pyStrip input)) "run " = true))
    (h3 : ¬ (pyLower (pyStrip input) = "hint" ∨ pyLower (pyStrip input) = "stuck" ∨
      pyLower (pyStrip input) = "help me"))
    (h4 : ¬ (pyLower (pyStrip input) = "next"))
    (h5 : ¬ (pyLower (pyStrip input) = "answer" ∨ pyLower (pyStrip input) = "solution"))
    (h6 : ¬ (pyLower (pyStrip input) = "explain"))
    (h7 : pyLower (pyStrip input) = "schema") :
    handle_command exec st input =
      (st, [Event.schemaView], true) := by
  unfold handle_command; rw [if_neg h1, if_neg h2, if_neg h3, if_neg h4, if_neg h5, if_neg h6, if_pos h7]

theorem hc_eq_tables (exec : Executor) (st : Coach) (input : String)
    (h1 : ¬ (pyStrip input = ""))
    (h2 : ¬ (strStartsWith (pyLower (pyStrip input)) "run " = true))
    (h3 : ¬ (pyLower (pyStrip input) = "hint" ∨ pyLower (pyStrip input) = "stuck" ∨
      pyLower (pyStrip input) = "help me"))
    (h4 : ¬ (pyLower (pyStrip input) = "next"))
    (h5 : ¬ (pyLower (pyStrip input) = "answer" ∨ pyLower (pyStrip input) = "solution"))
    (h6 : ¬ (pyLower (pyStrip input) = "explain"))
    (h7 : ¬ (pyLower (pyStrip input) = "schema"))
    (h8 : pyLower (pyStrip input) = "tables") :
    handle_command exec st input =
      (st, [Event.tablesView], true) := by
  unfold handle_command; rw [if_neg h1, if_neg h2, if_neg h3, if_neg h4, if_neg h5, if_neg h6, if_neg h7, if_pos h8]

theorem hc_eq_skip (exec : Executor) (st : Coach) (input : String)
    (h1 : ¬ (pyStrip input = ""))
    (h2 : ¬ (strStartsWith (pyLower (pyStrip input)) "run " = true))
    (h3 : ¬ (pyLower (pyStrip input) = "hint" ∨ pyLower (pyStrip input) = "stuck" ∨
      pyLower (pyStrip input) = "help me"))
    (h4 : ¬ (pyLower (pyStrip input) = "next"))
    (h5 : ¬ (pyLower (pyStrip input) = "answer" ∨ pyLower (pyStrip input) = "solution"))
    (h6 : ¬ (pyLower (pyStrip input) = "explain"))
    (h7 : ¬ (pyLower (pyStrip input) = "schema"))
    (h8 : ¬ (pyLower (pyStrip input) = "tables"))
    (h9 : pyLower (pyStrip input) = "skip") :
    handle_command exec st input =
      skipBranch st (get_lesson_by_id st.progress.current_lesson) := by
  unfold handle_command; rw [if_neg h1, if_neg h2, if_neg h3, if_neg h4, if_neg h5, if_neg h6, if_neg h7, if_neg h8, if_pos h9]

theorem hc_eq_goto (exec : Executor) (st : Coach) (input : String)
    (h1 : ¬ (pyStrip input = ""))
    (h2 : ¬ (strStartsWith (pyLower (pyStrip input)) "run " = true))
    (h3 : ¬ (pyLower (pyStrip input) = "hint" ∨ pyLower (pyStrip input) = "stuck" ∨
      pyLower (pyStrip input) = "help me"))
    (h4 : ¬ (pyLower (pyStrip input) = "next"))
    (h5 : ¬ (pyLower (pyStrip input) = "answer" ∨ pyLower (pyStrip input) = "solution"))
    (h6 : ¬ (pyLower (pyStrip input) = "explain"))
    (h7 : ¬ (pyLower (pyStrip input) = "schema"))
    (h8 : ¬ (pyLower (pyStrip input) = "tables"))
    (h9 : ¬ (pyLower (pyStrip input) = "skip"))
    (h10 : strStartsWith (pyLower (pyStrip input)) "lesson " = true) :
    handle_command exec st input =
      gotoBranch st (pyStrip (strDrop (pyStrip input) 7)) := by
  unfold handle_command; rw [if_neg h1, if_neg h2, if_neg h3, if_neg h4, if_neg h5, if_neg h6, if_neg h7, if_neg h8, if_neg h9, if_pos h10]

theorem hc_eq_progress (exec : Executor) (st : Coach) (input : String)
    (h1 : ¬ (pyStrip input = ""))
    (h2 : ¬ (strStartsWith (pyLower (pyStrip input)) "run " = true))
    (h3 : ¬ (pyLower (pyStrip input) = "hint" ∨ pyLower (pyStrip input) = "stuck" ∨
      pyLower (pyStrip input) = "help me"))
    (h4 : ¬ (pyLower (pyStrip input) = "next"))
    (h5 : ¬ (pyLower (pyStrip input) = "answer" ∨ pyLower (pyStrip input) = "solution"))
    (h6 : ¬ (pyLower (pyStrip input) = "explain"))
    (h7 : ¬ (pyLower (pyStrip input) = "schema"))
    (h8 : ¬ (pyLower (pyStrip input) = "tables"))
    (h9 : ¬ (pyLower (pyStrip input) = "skip"))
    (h10 : ¬ (strStartsWith (pyLower (pyStrip input)) "lesson " = true))
    (h11 : pyLower (pyStrip input) = "progress") :
    handle_command exec st input =
      (st, [Event.progressView st.progress.completed_lessons.length get_total_lessons
          st.progress.completed_lessons st.progress.current_lesson], true) := by
  unfold handle_command; rw [if_neg h1, if_neg h2, if_neg h3, if_neg h4, if_neg h5, if_neg h6, if_neg h7, if_neg h8, if_neg h9, if_neg h10, if_pos h11]

theorem hc_eq_reset (exec : Executor) (st : Coach) (input : String)
    (h1 : ¬ (pyStrip input = ""))
    (h2 : ¬ (strStartsWith (pyLower (pyStrip input)) "run " = true))
    (h3 : ¬ (pyLower (pyStrip input) = "hint" ∨ pyLower (pyStrip input) = "stuck" ∨
      pyLower (pyStrip input) = "help me"))
    (h4 : ¬ (pyLower (pyStrip input) = "next"))
    (h5 : ¬ (pyLower (pyStrip input) = "answer" ∨ pyLower (pyStrip input) = "solution"))
    (h6 : ¬ (pyLower (pyStrip input) = "explain"))
    (h7 : ¬ (pyLower (pyStrip input) = "schema"))
    (h8 : ¬ (pyLower (pyStrip input) = "tables"))
    (h9 : ¬ (pyLower (pyStrip input) = "skip"))
    (h10 : ¬ (strStartsWith (pyLower (pyStrip input)) "lesson " = true))
    (h11 : ¬ (pyLower (pyStrip input) = "progress"))
    (h12 : pyLower (pyStrip input) = "reset") :
    handle_command exec st input =
      ({ st with current_hint := 0, current_step := 0 },
     [Event.info "Lesson progress reset. Hints and steps start from beginning."], true) := by
  unfold handle_command; rw [if_neg h1, if_neg h2, if_neg h3, if_neg h4, if_neg h5, if_neg h6, if_neg h7, if_neg h8, if_neg h9, if_neg h10, if_neg h11, if_pos h12]

theorem hc_eq_help (exec : Executor) (st : Coach) (input : String)
    (h1 : ¬ (pyStrip input = ""))
    (h2 : ¬ (strStartsWith (pyLower (pyStrip input)) "run " = true))
    (h3 : ¬ (pyLower (pyStrip input) = "hint" ∨ pyLower (pyStrip input) = "stuck" ∨
      pyLower (pyStrip input) = "help me"))
    (h4 : ¬ (pyLower (pyStrip input) = "next"))
    (h5 : ¬ (pyLower (pyStrip input) = "answer" ∨ pyLower (pyStrip input) = "solution"))
    (h6 : ¬ (pyLower (pyStrip input) = "explain"))
    (h7 : ¬ (pyLower (pyStrip input) = "schema"))
    (h8 : ¬ (pyLower (pyStrip input) = "tables"))
    (h9 : ¬ (pyLower (pyStrip input) = "skip"))
    (h10 : ¬ (strStartsWith (pyLower (pyStrip input)) "lesson " = true))
    (h11 : ¬ (pyLower (pyStrip input) = "progress"))
    (h12 : ¬ (pyLower (pyStrip input) = "reset"))
    (h13 : pyLower (pyStrip input) = "help" ∨ pyLower (pyStrip input) = "?") :
    handle_command exec st input =
      (st, [Event.helpView], true) := by
  unfold handle_command; rw [if_neg h1, if_neg h2, if_neg h3, if_neg h4, if_neg h5, if_neg h6, if_neg h7, if_neg h8, if_neg h9, if_neg h10, if_neg h11, if_neg h12, if_pos h13]

theorem hc_eq_clear (exec : Executor) (st : Coach) (input : String)
    (h1 : ¬ (pyStrip input = ""))
    (h2 : ¬ (strStartsWith (pyLower (pyStrip input)) "run " = true))
    (h3 : ¬ (pyLower (pyStrip input) = "hint" ∨ pyLower (pyStrip input) = "stuck" ∨
      pyLower (pyStrip input) = "help me"))
    (h4 : ¬ (pyLower (pyStrip input) = "next"))
    (h5 : ¬ (pyLower (pyStrip input) = "answer" ∨ pyLower (pyStrip input) = "solution"))
    (h6 : ¬ (pyLower (pyStrip input) = "explain"))
    (h7 : ¬ (pyLower (pyStrip input) = "schema"))
    (h8 : ¬ (pyLower (pyStrip input) = "tables"))
    (h9 : ¬ (pyLower (pyStrip input) = "skip"))
    (h10 : ¬ (strStartsWith (pyLower (pyStrip input)) "lesson " = true))
    (h11 : ¬ (pyLower (pyStrip input) = "progress"))
    (h12 : ¬ (pyLower (pyStrip input) = "reset"))
    (h13 : ¬ (pyLower (pyStrip input) = "help" ∨ pyLower (pyStrip input) = "?"))
    (h14 : pyLower (pyStrip input) = "clear" ∨ pyLower (pyStrip input) = "cls") :
    handle_command exec st input =
      clearBranch st := by
  unfold handle_command; rw [if_neg h1, if_neg h2, if_neg h3, if_neg h4, if_neg h5, if_neg h6, if_neg h7, if_neg h8, if_neg h9, if_neg h10, if_neg h11, if_neg h12, if_neg h13, if_pos h14]

theorem hc_eq_quit (exec : Executor) (st : Coach) (input : String)
    (h1 : ¬ (pyStrip input = ""))
    (h2 : ¬ (strStartsWith (pyLower (pyStrip input)) "run " = true))
    (h3 : ¬ (pyLower (pyStrip input) = "hint" ∨ pyLower (pyStrip input) = "stuck" ∨
      pyLower (pyStrip input) = "help me"))
    (h4 : ¬ (pyLower (pyStrip input) = "next"))
    (h5 : ¬ (pyLower (pyStrip input) = "answer" ∨ pyLower (pyStrip input) = "solution"))
    (h6 : ¬ (pyLower (pyStrip input) = "explain"))
    (h7 : ¬ (pyLower (pyStrip input) = "schema"))
    (h8 : ¬ (pyLower (pyStrip input) = "tables"))
    (h9 : ¬ (pyLower (pyStrip input) = "skip"))
    (h10 : ¬ (strStartsWith (pyLower (pyStrip input)) "lesson " = true))
    (h11 : ¬ (pyLower (pyStrip input) = "progress"))
    (h12 : ¬ (pyLower (pyStrip input) = "reset"))
    (h13 : ¬ (pyLower (pyStrip input) = "help" ∨ pyLower (pyStrip input) = "?"))
    (h14 : ¬ (pyLower (pyStrip input) = "clear" ∨ pyLower (pyStrip input) = "cls"))
    (h15 : pyLower (pyStrip input) = "quit" ∨ pyLower (pyStrip input) = "exit" ∨
      pyLower (pyStrip input) = "q") :
    handle_command exec st input =
      (st, [Event.saved st.progress, Event.info "Progress saved! See you next time."],
     false) := by
  unfold handle_command; rw [if_neg h1, if_neg h2, if_neg h3, if_neg h4, if_neg h5, if_neg h6, if_neg h7, if_neg h8, if_neg h9, if_neg h10, if_neg h11, if_neg h12, if_neg h13, if_neg h14, if_pos h15]

theorem hc_eq_bare (exec : Executor) (st : Coach) (input : String)
    (h1 : ¬ (pyStrip input = ""))
    (h2 : ¬ (strStartsWith (pyLower (pyStrip input)) "run " = true))
    (h3 : ¬ (pyLower (pyStrip input) = "hint" ∨ pyLower (pyStrip input) = "stuck" ∨
      pyLower (pyStrip input) = "help me"))
    (h4 : ¬ (pyLower (pyStrip input) = "next"))
    (h5 : ¬ (pyLower (pyStrip input) = "answer" ∨ pyLower (pyStrip input) = "solution"))
    (h6 : ¬ (pyLower (pyStrip input) = "explain"))
    (h7 : ¬ (pyLower (pyStrip input) = "schema"))
    (h8 : ¬ (pyLower (pyStrip input) = "tables"))
    (h9 : ¬ (pyLower (pyStrip input) = "skip"))
    (h10 : ¬ (strStartsWith (pyLower (pyStrip input)) "lesson " = true))
    (h11 : ¬ (pyLower (pyStrip input) = "progress"))
    (h12 : ¬ (pyLower (pyStrip input) = "reset"))
    (h13 : ¬ (pyLower (pyStrip input) = "help" ∨ pyLower (pyStrip input) = "?"))
    (h14 : ¬ (pyLower (pyStrip input) = "clear" ∨ pyLower (pyStrip input) = "cls"))
    (h15 : ¬ (pyLower (pyStrip input) = "quit" ∨ pyLower (pyStrip input) = "exit" ∨
      pyLower (pyStrip input) = "q"))
    (h16 : (sqlKeywords.any (fun kw => isSubstring kw (pyLower (pyStrip input)))) = true) :
    handle_command exec st input =
      bareSqlBranch exec st (pyStrip input) := by
  unfold handle_command; rw [if_neg h1, if_neg h2, if_neg h3, if_neg h4, if_neg h5, if_neg h6, if_neg h7, if_neg h8, if_neg h9, if_neg h10, if_neg h11, if_neg h12, if_neg h13, if_neg h14, if_neg h15, if_pos h16]

theorem hc_eq_unknown (exec : Executor) (st : Coach) (input : String)
    (h1 : ¬ (pyStrip input = ""))
    (h2 : ¬ (strStartsWith (pyLower (pyStrip input)) "run " = true))
    (h3 : ¬ (pyLower (pyStrip input) = "hint" ∨ pyLower (pyStrip input) = "stuck" ∨
      pyLower (pyStrip input) = "help me"))
    (h4 : ¬ (pyLower (pyStrip input) = "next"))
    (h5 : ¬ (pyLower (pyStrip input) = "answer" ∨ pyLower (pyStrip input) = "solution"))
    (h6 : ¬ (pyLower (pyStrip input) = "explain"))
    (h7 : ¬ (pyLower (pyStrip input) = "schema"))
    (h8 : ¬ (pyLower (pyStrip input) = "tables"))
    (h9 : ¬ (pyLower (pyStrip input) = "skip"))
    (h10 : ¬ (strStartsWith (pyLower (pyStrip input)) "lesson " = true))
    (h11 : ¬ (pyLower (pyStrip input) = "progress"))
    (h12 : ¬ (pyLower (pyStrip input) = "reset"))
    (h13 : ¬ (pyLower (pyStrip input) = "help" ∨ pyLower (pyStrip input) = "?"))
    (h14 : ¬ (pyLower (pyStrip input) = "clear" ∨ pyLower (pyStrip input) = "cls"))
    (h15 : ¬ (pyLower (pyStrip input) = "quit" ∨ pyLower (pyStrip input) = "exit" ∨
      pyLower (pyStrip input) = "q"))
    (h16 : ¬ ((sqlKeywords.any (fun kw => isSubstring kw (pyLower (pyStrip input)))) = true)) :
    handle_command exec st input =
      (st, [Event.info "Unknown command. Type \x27help\x27 for available commands."], true) := by
  unfold handle_command; rw [if_neg h1, if_neg h2, if_neg h3, if_neg h4, if_neg h5, if_neg h6, if_neg h7, if_neg h8, if_neg h9, if_neg h10, if_neg h11, if_neg h12, if_neg h13, if_neg h14, if_neg h15, if_neg h16]

/-- Case analysis on the branch taken by `handle_command`: to prove a
property of the result it suffices to prove it for each branch outcome,
under that branch's guard. -/
theorem handle_command_elim (motive : Coach × List Event × Bool → Prop)
    (exec : Executor) (st : Coach) (input : String)
    (h_empty : (pyStrip input = "") →
      motive ((st, [], true)))
    (h_run : (strStartsWith (pyLower (pyStrip input)) "run " = true) →
      motive (runBranch exec st (pyStrip (strDrop (pyStrip input) 4))
        (get_lesson_by_id st.progress.current_lesson)))
    (h_hint : (pyLower (pyStrip input) = "hint" ∨ pyLower (pyStrip input) = "stuck" ∨
      pyLower (pyStrip input) = "help me") →
      motive (hintBranch st (get_lesson_by_id st.progress.current_lesson)))
    (h_next : (pyLower (pyStrip input) = "next") →
      motive (nextBranch st (get_lesson_by_id st.progress.current_lesson)))
    (h_answer : (pyLower (pyStrip input) = "answer" ∨ pyLower (pyStrip input) = "solution") →
      motive ((match get_lesson_by_id st.progress.current_lesson with
       | some (lesson, _) => (st, [Event.answerBox lesson.answer], true)
       | none => (st, [], true))))
    (h_explain : (pyLower (pyStrip input) = "explain") →
      motive ((match st.last_query with
       | some q => (st, [Event.explainView (executionSteps q)], true)
       | none =>
           (st, [Event.info
             "Run a query first, then type \x27explain\x27 to see execution order."], true))))
    (h_schema : (pyLower (pyStrip input) = "schema") →
      motive ((st, [Event.schemaView], true)))
    (h_tables : (pyLower (pyStrip input) = "tables") →
      motive ((st, [Event.tablesView], true)))
    (h_skip : (pyLower (pyStrip input) = "skip") →
      motive (skipBranch st (get_lesson_by_id st.progress.current_lesson)))
    (h_goto : (strStartsWith (pyLower (pyStrip input)) "lesson " = true) →
      motive (gotoBranch st (pyStrip (strDrop (pyStrip input) 7))))
    (h_progress : (pyLower (pyStrip input) = "progress") →
      motive ((st, [Event.progressView st.progress.completed_lessons.length get_total_lessons
          st.progress.completed_lessons st.progress.current_lesson], true)))
    (h_reset : (pyLower (pyStrip input) = "reset") →
      motive (({ st with current_hint := 0, current_step := 0 },
     [Event.info "Lesson progress reset. Hints and steps start from beginning."], true)))
    (h_help : (pyLower (pyStrip input) = "help" ∨ pyLower (pyStrip input) = "?") →
      motive ((st, [Event.helpView], true)))
    (h_clear : (pyLower (pyStrip input) = "clear" ∨ pyLower (pyStrip input) = "cls") →
      motive (clearBranch st))
    (h_quit : (pyLower (pyStrip input) = "quit" ∨ pyLower (pyStrip input) = "exit" ∨
      pyLower (pyStrip input) = "q") →
      motive ((st, [Event.saved st.progress, Event.info "Progress saved! See you next time."],
     false)))
    (h_bare : ((sqlKeywords.any (fun kw => isSubstring kw (pyLower (pyStrip input)))) = true) →
      motive (bareSqlBranch exec st (pyStrip input)))
    (h_unknown : motive (st, [Event.info "Unknown command. Type \x27help\x27 for available commands."], true)) :
    motive (handle_command exec st input) := by
  by_cases h1 : (pyStrip input = "")
  · rw [hc_eq_empty exec st input h1]; exact h_empty h1
  by_cases h2 : (strStartsWith (pyLower (pyStrip input)) "run " = true)
  · rw [hc_eq_run exec st input h1 h2]; exact h_run h2
  by_cases h3 : (pyLower (pyStrip input) = "hint" ∨ pyLower (pyStrip input) = "stuck" ∨
      pyLower (pyStrip input) = "help me")
  · rw [hc_eq_hint exec st input h1 h2 h3]; exact h_hint h3
  by_cases h4 : (pyLower (pyStrip input) = "next")
  · rw [hc_eq_next exec st input h1 h2 h3 h4]; exact h_next h4
  by_cases h5 : (pyLower (pyStrip input) = "answer" ∨ pyLower (pyStrip input) = "solution")
  · rw [hc_eq_answer exec st input h1 h2 h3 h4 h5]; exact h_answer h5
  by_cases h6 : (pyLower (pyStrip input) = "explain")
  · rw [hc_eq_explain exec st input h1 h2 h3 h4 h5 h6]; exact h_explain h6
  by_cases h7 : (pyLower (pyStrip input) = "schema")
  · rw [hc_eq_schema exec st input h1 h2 h3 h4 h5 h6 h7]; exact h_schema h7
  by_cases h8 : (pyLower (pyStrip input) = "tables")
  · rw [hc_eq_tables exec st input h1 h2 h3 h4 h5 h6 h7 h8]; exact h_tables h8
  by_cases h9 : (pyLower (pyStrip input) = "skip")
  · rw [hc_eq_skip exec st input h1 h2 h3 h4 h5 h6 h7 h8 h9]; exact h_skip h9
  by_cases h10 : (strStartsWith (pyLower (pyStrip input)) "lesson " = true)
  · rw [hc_eq_goto exec st input h1 h2 h3 h4 h5 h6 h7 h8 h9 h10]; exact h_goto h10
  by_cases h11 : (pyLower (pyStrip input) = "progress")
  · rw [hc_eq_progress exec st input h1 h2 h3 h4 h5 h6 h7 h8 h9 h10 h11]; exact h_progress h11
  by_cases h12 : (pyLower (pyStrip input) = "reset")
  · rw [hc_eq_reset exec st input h1 h2 h3 h4 h5 h6 h7 h8 h9 h10 h11 h12]; exact h_reset h12
  by_cases h13 : (pyLower (pyStrip input) = "help" ∨ pyLower (pyStrip input) = "?")
  · rw [hc_eq_help exec st input h1 h2 h3 h4 h5 h6 h7 h8 h9 h10 h11 h12 h13]; exact h_help h13
  by_cases h14 : (pyLower (pyStrip input) = "clear" ∨ pyLower (pyStrip input) = "cls")
  · rw [hc_eq_clear exec st input h1 h2 h3 h4 h5 h6 h7 h8 h9 h10 h11 h12 h13 h14]; exact h_clear h14
  by_cases h15 : (pyLower (pyStrip input) = "quit" ∨ pyLower (pyStrip input) = "exit" ∨
      pyLower (pyStrip input) = "q")
  · rw [hc_eq_quit exec st input h1 h2 h3 h4 h5 h6 h7 h8 h9 h10 h11 h12 h13 h14 h15]; exact h_quit h15
  by_cases h16 : ((sqlKeywords.any (fun kw => isSubstring kw (pyLower (pyStrip input)))) = true)
  · rw [hc_eq_bare exec st input h1 h2 h3 h4 h5 h6 h7 h8 h9 h10 h11 h12 h13 h14 h15 h16]; exact h_bare h16
  rw [hc_eq_unknown exec st input h1 h2 h3 h4 h5 h6 h7 h8 h9 h10 h11 h12 h13 h14 h15 h16]
  exact h_unknown

/-! ## Frame lemmas for `show_current_lesson` and the branches -/

theorem show_current_lesson_progress (st : Coach) :
    (show_current_lesson st).1.progress = st.progress := by
  unfold show_current_lesson
  split <;> rfl

theorem show_current_lesson_some (st : Coach) (lesson : Lesson) (phase : Phase)
    (h : get_lesson_by_id st.progress.current_lesson = some (lesson, phase)) :
    show_current_lesson st =
      ({ st with current_hint := 0, current_step := 0 },
       [Event.lessonView phase.id lesson.id
          st.progress.completed_lessons.length get_total_lessons]) := by
  unfold show_current_lesson
  rw [h]

theorem show_current_lesson_none (st : Coach)
    (h : get_lesson_by_id st.progress.current_lesson = none) :
    show_current_lesson st = (st, [Event.errorBox "Lesson not found!"]) := by
  unfold show_current_lesson
  rw [h]

theorem show_current_lesson_no_saved (st : Coach) (p : Progress) :
    Event.saved p ∉ (show_current_lesson st).2 := by
  unfold show_current_lesson
  split <;> simp

theorem show_current_lesson_no_success (st : Coach) (m : String) :
    Event.successBox m ∉ (show_current_lesson st).2 := by
  unfold show_current_lesson
  split <;> simp

theorem runBranch_state (exec : Executor) (st : Coach) (sql : String)
    (lo : Option (Lesson × Phase)) :
    (runBranch exec st sql lo).1 = { st with last_query := some sql } := by
  unfold runBranch runOk
  repeat' split
  all_goals rfl

theorem runBranch_continue (exec : Executor) (st : Coach) (sql : String)
    (lo : Option (Lesson × Phase)) : (runBranch exec st sql lo).2.2 = true := by
  unfold runBranch runOk
  repeat' split
  all_goals rfl

theorem runBranch_err (exec : Executor) (st : Coach) (sql : String)
    (lo : Option (Lesson × Phase)) (e : String) (h : exec sql = Except.error e) :
    runBranch exec st sql lo =
      ({ st with last_query := some sql },
       [Event.errorBox ("SQL Error:\n" ++ e)], true) := by
  unfold runBranch
  rw [h]

theorem runBranch_no_saved (exec : Executor) (st : Coach) (sql : String)
    (lo : Option (Lesson × Phase)) (p : Progress) :
    Event.saved p ∉ (runBranch exec st sql lo).2.1 := by
  unfold runBranch runOk
  repeat' split
  all_goals simp

theorem hintBranch_progress (st : Coach) (lo : Option (Lesson × Phase)) :
    (hintBranch st lo).1.progress = st.progress := by
  unfold hintBranch
  repeat' split
  all_goals rfl

theorem hintBranch_no_saved (st : Coach) (lo : Option (Lesson × Phase)) (p : Progress) :
    Event.saved p ∉ (hintBranch st lo).2.1 := by
  unfold hintBranch
  repeat' split
  all_goals simp

theorem hintBranch_mono (st : Coach) (lo : Option (Lesson × Phase)) :
    st.current_hint ≤ (hintBranch st lo).1.current_hint := by
  unfold hintBranch
  repeat' split
  · exact Nat.le_refl _
  · exact Nat.le_succ _
  · exact Nat.le_refl _

theorem nextBranch_progress (st : Coach) (lo : Option (Lesson × Phase)) :
    (nextBranch st lo).1.progress = st.progress := by
  unfold nextBranch
  repeat' split
  all_goals rfl

theorem nextBranch_hint (st : Coach) (lo : Option (Lesson × Phase)) :
    (nextBranch st lo).1.current_hint = st.current_hint := by
  unfold nextBranch
  repeat' split
  all_goals rfl

theorem nextBranch_no_saved (st : Coach) (lo : Option (Lesson × Phase)) (p : Progress) :
    Event.saved p ∉ (nextBranch st lo).2.1 := by
  unfold nextBranch
  repeat' split
  all_goals simp

theorem skipBranch_hc (st : Coach) (lo : Option (Lesson × Phase)) :
    (skipBranch st lo).1.progress.hint_counts = st.progress.hint_counts := by
  unfold skipBranch skipLesson
  repeat' split
  all_goals try rfl
  all_goals rw [show_current_lesson_progress]

theorem skipBranch_saved (st : Coach) (lo : Option (Lesson × Phase)) (p : Progress)
    (h : Event.saved p ∈ (skipBranch st lo).2.1) :
    p.hint_counts = st.progress.hint_counts := by
  unfold skipBranch skipLesson at h
  repeat' split at h
  · simp at h
  · rw [List.mem_append] at h
    rcases h with h | h
    · simp only [List.mem_cons, List.not_mem_nil, or_false] at h
      rcases h with h | h | h
      · cases h; rfl
      · simp at h
      · simp at h
    · exact absurd h (show_current_lesson_no_saved _ p)
  · simp at h

theorem gotoBranch_hc (st : Coach) (lessonId : String) :
    (gotoBranch st lessonId).1.progress.hint_counts = st.progress.hint_counts := by
  unfold gotoBranch
  repeat' split
  all_goals try rfl
  all_goals rw [show_current_lesson_progress]

theorem clearBranch_progress (st : Coach) :
    (clearBranch st).1.progress = st.progress := by
  unfold clearBranch
  rw [show_current_lesson_progress]

theorem bareSqlBranch_state (exec : Executor) (st : Coach) (cmd : String) :
    (bareSqlBranch exec st cmd).1 = { st with last_query := some cmd } := by
  unfold bareSqlBranch
  repeat' split
  all_goals rfl

theorem bareSqlBranch_continue (exec : Executor) (st : Coach) (cmd : String) :
    (bareSqlBranch exec st cmd).2.2 = true := by
  unfold bareSqlBranch
  repeat' split
  all_goals rfl

theorem bareSqlBranch_err (exec : Executor) (st : Coach) (cmd e : String)
    (h : exec cmd = Except.error e) :
    bareSqlBranch exec st cmd =
      ({ st with last_query := some cmd },
       [Event.errorBox ("SQL Error:\n" ++ e)], true) := by
  unfold bareSqlBranch
  rw [h]

theorem bareSqlBranch_no_success (exec : Executor) (st : Coach) (cmd : String)
    (m : String) : Event.successBox m ∉ (bareSqlBranch exec st cmd).2.1 := by
  unfold bareSqlBranch
  repeat' split
  all_goals simp


theorem hintBranch_no_success (st : Coach) (lo : Option (Lesson × Phase)) (m : String) :
    Event.successBox m ∉ (hintBranch st lo).2.1 := by
  unfold hintBranch
  repeat' split
  all_goals simp

theorem nextBranch_no_success (st : Coach) (lo : Option (Lesson × Phase)) (m : String) :
    Event.successBox m ∉ (nextBranch st lo).2.1 := by
  unfold nextBranch
  repeat' split
  all_goals simp

theorem gotoBranch_no_success (st : Coach) (lessonId m : String) :
    Event.successBox m ∉ (gotoBranch st lessonId).2.1 := by
  unfold gotoBranch
  repeat' split
  · intro h
    rw [List.mem_append] at h
    rcases h with h | h
    · simp at h
    · exact absurd h (show_current_lesson_no_success _ m)
  · simp

theorem gotoBranch_saved (st : Coach) (lessonId : String) (p : Progress)
    (h : Event.saved p ∈ (gotoBranch st lessonId).2.1) :
    p.hint_counts = st.progress.hint_counts := by
  unfold gotoBranch at h
  repeat' split at h
  · rw [List.mem_append] at h
    rcases h with h | h
    · simp only [List.mem_cons, List.not_mem_nil, or_false] at h
      rcases h with h | h | h
      · cases h; rfl
      · simp at h
      · simp at h
    · exact absurd h (show_current_lesson_no_saved _ p)
  · simp at h

theorem clearBranch_no_saved (st : Coach) (p : Progress) :
    Event.saved p ∉ (clearBranch st).2.1 := by
  unfold clearBranch
  intro h
  rw [List.mem_append] at h
  rcases h with h | h
  · simp at h
  · exact absurd h (show_current_lesson_no_saved _ p)

theorem bareSqlBranch_no_saved (exec : Executor) (st : Coach) (cmd : String)
    (p : Progress) : Event.saved p ∉ (bareSqlBranch exec st cmd).2.1 := by
  unfold bareSqlBranch
  repeat' split
  all_goals simp

theorem savedSnapshots_show (st : Coach) :
    savedSnapshots (show_current_lesson st).2 = [] := by
  unfold show_current_lesson
  split <;> rfl

/-! ## Curriculum lookup lemmas -/

theorem findLessonIn_id (phases : List Phase) (i : String) (lesson : Lesson)
    (phase : Phase) (h : findLessonIn phases i = some (lesson, phase)) :
    lesson.id = i := by
  induction phases with
  | nil => simp [findLessonIn] at h
  | cons p ps ih =>
      unfold findLessonIn at h
      cases hf : p.lessons.find? (fun l => l.id == i) with
      | none => rw [hf] at h; exact ih h
      | some l =>
          rw [hf] at h
          have hbeq := List.find?_some (p := fun x : Lesson => x.id == i) hf
          simp only [Option.some.injEq, Prod.mk.injEq] at h
          rw [← h.1]
          exact eq_of_beq hbeq

theorem get_lesson_by_id_id (i : String) (lesson : Lesson) (phase : Phase)
    (h : get_lesson_by_id i = some (lesson, phase)) : lesson.id = i :=
  findLessonIn_id CURRICULUM i lesson phase h

theorem findLessonIn_isSome_of_mem (phases : List Phase) (i : String)
    (h : i ∈ idsOf phases) : (findLessonIn phases i).isSome := by
  induction phases with
  | nil => simp [idsOf] at h
  | cons p ps ih =>
      unfold idsOf at h
      rw [List.mem_append] at h
      unfold findLessonIn
      cases hf : p.lessons.find? (fun l => l.id == i) with
      | some l => rfl
      | none =>
          rcases h with h | h
          · exfalso
            rw [List.mem_map] at h
            obtain ⟨l, hl, hid⟩ := h
            have := List.find?_eq_none.mp hf l hl
            rw [hid] at this
            simp at this
          · exact ih h

theorem get_lesson_by_id_isSome_of_mem (i : String) (h : i ∈ allLessonIds) :
    (get_lesson_by_id i).isSome :=
  findLessonIn_isSome_of_mem CURRICULUM i h

theorem nextIn_mem (xs : List String) (cur nid : String)
    (h : nextIn xs cur = some nid) : nid ∈ xs := by
  induction xs with
  | nil => simp [nextIn] at h
  | cons x rest ih =>
      unfold nextIn at h
      by_cases hx : x == cur
      · rw [if_pos hx] at h
        cases rest with
        | nil => simp at h
        | cons y ys => cases h; exact List.mem_cons_of_mem _ (List.mem_cons_self _ _)
      · rw [if_neg hx] at h
        exact List.mem_cons_of_mem _ (ih h)

theorem nextIn_ne (xs : List String) (cur nid : String) (hnd : xs.Nodup)
    (h : nextIn xs cur = some nid) : nid ≠ cur := by
  induction xs with
  | nil => simp [nextIn] at h
  | cons x rest ih =>
      unfold nextIn at h
      by_cases hx : x == cur
      · rw [if_pos hx] at h
        have hxcur : x = cur := eq_of_beq hx
        have hnin : x ∉ rest := (List.nodup_cons.mp hnd).1
        have hmem : nid ∈ rest := by
          cases rest with
          | nil => simp at h
          | cons y ys => cases h; exact List.mem_cons_self _ _
        intro heq
        rw [heq, ← hxcur] at hmem
        exact hnin hmem
      · rw [if_neg hx] at h
        exact ih (List.nodup_cons.mp hnd).2 h

set_option maxRecDepth 2000 in
theorem allLessonIds_nodup : allLessonIds.Nodup := by decide

theorem get_next_lesson_id_ne (i nid : String) (h : get_next_lesson_id i = some nid) :
    nid ≠ i :=
  nextIn_ne allLessonIds i nid allLessonIds_nodup h

theorem get_next_lesson_id_mem (i nid : String) (h : get_next_lesson_id i = some nid) :
    nid ∈ allLessonIds :=
  nextIn_mem allLessonIds i nid h

theorem show_cursor_zero (st : Coach)
    (h : (get_lesson_by_id st.progress.current_lesson).isSome) :
    (show_current_lesson st).1.current_hint = 0 ∧
    (show_current_lesson st).1.current_step = 0 := by
  unfold show_current_lesson
  cases hx : get_lesson_by_id st.progress.current_lesson with
  | none => rw [hx] at h; simp at h
  | some lp => obtain ⟨l, ph⟩ := lp; exact ⟨rfl, rfl⟩

theorem mem_completedAfterSkip (completed : List String) (i : String) :
    i ∈ completedAfterSkip completed i := by
  unfold completedAfterSkip
  split
  · assumption
  · simp

theorem nodup_completedAfterSkip (completed : List String) (i : String)
    (h : completed.Nodup) : (completedAfterSkip completed i).Nodup := by
  unfold completedAfterSkip
  split
  · exact h
  · rename_i hnin
    refine List.Nodup.append h (List.nodup_singleton i) ?_
    intro x hx hx2
    rw [List.mem_singleton] at hx2
    subst hx2
    exact hnin hx

theorem completedAfterSkip_idem (completed : List String) (i : String) :
    completedAfterSkip (completedAfterSkip completed i) i =
      completedAfterSkip completed i := by
  have hdef : ∀ (a : List String) (b : String),
      completedAfterSkip a b = if b ∈ a then a else a ++ [b] := fun a b => rfl
  rw [hdef (completedAfterSkip completed i) i,
    if_pos (mem_completedAfterSkip completed i)]

theorem run_prefix_ne_empty (input : String)
    (h : strStartsWith (pyLower (pyStrip input)) "run " = true) :
    ¬ (pyStrip input = "") := by
  intro heq
  rw [heq] at h
  exact absurd h (by decide)

theorem lesson_prefix_ne_empty (input : String)
    (h : strStartsWith (pyLower (pyStrip input)) "lesson " = true) :
    ¬ (pyStrip input = "") := by
  intro heq
  rw [heq] at h
  exact absurd h (by decide)


/-! ## Claim C10 — hint_counts is never written -/

/-- C10: no operation ever writes to the `hint_counts` mapping of progress:
every `handle_command` step preserves it, every snapshot persisted by a save
carries exactly the pre-state mapping, over every command sequence the final
mapping equals the one loaded at startup, and the first-run default is the
empty mapping — so hint usage is never recorded durably. -/
theorem c10_hint_counts_never_written :
    (∀ (exec : Executor) (st : Coach) (input : String),
      (handle_command exec st input).1.progress.hint_counts = st.progress.hint_counts ∧
      ∀ p : Progress, Event.saved p ∈ (handle_command exec st input).2.1 →
        p.hint_counts = st.progress.hint_counts) ∧
    (∀ (exec : Executor) (st : Coach) (cmds : List String),
      (runCommands exec st cmds).progress.hint_counts = st.progress.hint_counts) ∧
    (∀ now : String, (default_progress now).hint_counts = []) := by
  have step : ∀ (exec : Executor) (st : Coach) (input : String),
      (handle_command exec st input).1.progress.hint_counts = st.progress.hint_counts ∧
      ∀ p : Progress, Event.saved p ∈ (handle_command exec st input).2.1 →
        p.hint_counts = st.progress.hint_counts := by
    intro exec st input
    refine handle_command_elim
      (fun r => r.1.progress.hint_counts = st.progress.hint_counts ∧
        ∀ p : Progress, Event.saved p ∈ r.2.1 → p.hint_counts = st.progress.hint_counts)
      exec st input ?_ ?_ ?_ ?_ ?_ ?_ ?_ ?_ ?_ ?_ ?_ ?_ ?_ ?_ ?_ ?_ ?_
    · intro _
      exact ⟨rfl, fun p hp => absurd hp (by simp)⟩
    · intro _
      refine ⟨by rw [runBranch_state], fun p hp => absurd hp (runBranch_no_saved _ _ _ _ p)⟩
    · intro _
      exact ⟨by rw [hintBranch_progress], fun p hp => absurd hp (hintBranch_no_saved _ _ p)⟩
    · intro _
      exact ⟨by rw [nextBranch_progress], fun p hp => absurd hp (nextBranch_no_saved _ _ p)⟩
    · intro _
      cases hx : get_lesson_by_id st.progress.current_lesson with
      | some lp =>
          obtain ⟨l, ph⟩ := lp
          exact ⟨rfl, fun p hp => absurd hp (by simp)⟩
      | none => exact ⟨rfl, fun p hp => absurd hp (by simp)⟩
    · intro _
      cases hq : st.last_query with
      | some q => exact ⟨rfl, fun p hp => absurd hp (by simp)⟩
      | none => exact ⟨rfl, fun p hp => absurd hp (by simp)⟩
    · intro _
      exact ⟨rfl, fun p hp => absurd hp (by simp)⟩
    · intro _
      exact ⟨rfl, fun p hp => absurd hp (by simp)⟩
    · intro _
      exact ⟨skipBranch_hc _ _, fun p hp => skipBranch_saved _ _ p hp⟩
    · intro _
      exact ⟨gotoBranch_hc _ _, fun p hp => gotoBranch_saved _ _ p hp⟩
    · intro _
      exact ⟨rfl, fun p hp => absurd hp (by simp)⟩
    · intro _
      exact ⟨rfl, fun p hp => absurd hp (by simp)⟩
    · intro _
      exact ⟨rfl, fun p hp => absurd hp (by simp)⟩
    · intro _
      exact ⟨by rw [clearBranch_progress], fun p hp => absurd hp (clearBranch_no_saved _ p)⟩
    · intro _
      refine ⟨rfl, fun p hp => ?_⟩
      simp only [List.mem_cons, List.not_mem_nil, or_false] at hp
      rcases hp with hp | hp
      · cases hp; rfl
      · simp at hp
    · intro _
      exact ⟨by rw [bareSqlBranch_state], fun p hp => absurd hp (bareSqlBranch_no_saved _ _ _ p)⟩
    · exact ⟨rfl, fun p hp => absurd hp (by simp)⟩
  refine ⟨step, ?_, fun _ => rfl⟩
  intro exec st cmds
  induction cmds generalizing st with
  | nil => rfl
  | cons c rest ih =>
      unfold runCommands
      rw [ih (handle_command exec st c).1, (step exec st c).1]

set_option maxRecDepth 10000 in
/-- Witness for C10 at concrete inputs: a run of three commands preserves the
(empty) startup mapping, the first-run default is empty, and the snapshot
saved by `quit` carries the pre-state mapping. -/
theorem c10_witness :
    (runCommands execAlwaysOk coach0 ["hint", "skip", "quit"]).progress.hint_counts
        = coach0.progress.hint_counts
    ∧ (default_progress "2024-01-01T00:00:00").hint_counts = []
    ∧ coach0.progress.hint_counts = coach0.progress.hint_counts :=
  ⟨c10_hint_counts_never_written.2.1 execAlwaysOk coach0 ["hint", "skip", "quit"],
   c10_hint_counts_never_written.2.2 "2024-01-01T00:00:00",
   (c10_hint_counts_never_written.1 execAlwaysOk coach0 "quit").2 coach0.progress
     (by decide)⟩

/-! ## Claim C9 — clear/cls resets both cursors, touches no progress -/

/-- C9: the `clear`/`cls` command re-renders the current lesson and thereby
resets both the hint cursor and the step cursor to 0 even though the current
lesson id did not change; it does not modify the progress record and
persists nothing. -/
theorem c9_clear_resets_cursors (exec : Executor) (st : Coach) (lesson : Lesson)
    (phase : Phase)
    (h : get_lesson_by_id st.progress.current_lesson = some (lesson, phase)) :
    handle_command exec st "clear" =
      ({ st with current_hint := 0, current_step := 0 },
       [Event.screenCleared, Event.banner,
        Event.lessonView phase.id lesson.id
          st.progress.completed_lessons.length get_total_lessons], true)
    ∧ handle_command exec st "cls" =
      ({ st with current_hint := 0, current_step := 0 },
       [Event.screenCleared, Event.banner,
        Event.lessonView phase.id lesson.id
          st.progress.completed_lessons.length get_total_lessons], true)
    ∧ (handle_command exec st "clear").1.progress = st.progress
    ∧ savedSnapshots (handle_command exec st "clear").2.1 = [] := by
  have hbr : clearBranch st =
      ({ st with current_hint := 0, current_step := 0 },
       [Event.screenCleared, Event.banner,
        Event.lessonView phase.id lesson.id
          st.progress.completed_lessons.length get_total_lessons], true) := by
    unfold clearBranch
    rw [show_current_lesson_some st lesson phase h]
    rfl
  have hclear : handle_command exec st "clear" = clearBranch st := rfl
  have hcls : handle_command exec st "cls" = clearBranch st := rfl
  refine ⟨hclear.trans hbr, hcls.trans hbr, ?_, ?_⟩
  · rw [hclear, hbr]
  · rw [hclear, hbr]
    rfl

set_option maxRecDepth 10000 in
/-- Witness for C9 at the fresh coach on lesson "1.1". -/
theorem c9_witness :
    handle_command execAlwaysOk coach0 "clear" =
      ({ coach0 with current_hint := 0, current_step := 0 },
       [Event.screenCleared, Event.banner,
        Event.lessonView phase_1.id lesson_1_1.id
          coach0.progress.completed_lessons.length get_total_lessons], true)
    ∧ handle_command execAlwaysOk coach0 "cls" =
      ({ coach0 with current_hint := 0, current_step := 0 },
       [Event.screenCleared, Event.banner,
        Event.lessonView phase_1.id lesson_1_1.id
          coach0.progress.completed_lessons.length get_total_lessons], true)
    ∧ (handle_command execAlwaysOk coach0 "clear").1.progress = coach0.progress
    ∧ savedSnapshots (handle_command execAlwaysOk coach0 "clear").2.1 = [] :=
  c9_clear_resets_cursors execAlwaysOk coach0 lesson_1_1 phase_1 (by decide)

/-! ## Claim C6 — unresolvable current lesson id -/

set_option maxRecDepth 10000 in
/-- C6 counterexample: with an unresolvable current lesson id ("9.9"), the
`hint` command produces no output at all — in particular it does not report
"lesson not found" as the claim states (the same holds for `next`, `answer`
and `skip`; only the lesson display reports). -/
theorem c6_counterexample :
    handle_command execAlwaysOk coachBad "hint" = (coachBad, [], true) := by
  decide

/-- C6 (amended): when the current lesson id does not resolve, `hint`,
`next`, `answer` and `skip` are silent no-ops — no state mutation, no output,
the loop continues (the process stays usable) — while the lesson display
(`show_current_lesson`, also reached via `clear`) is the place that reports
"Lesson not found!" with no state mutation. -/
theorem c6_unresolvable_lesson (exec : Executor) (st : Coach)
    (h : get_lesson_by_id st.progress.current_lesson = none) :
    handle_command exec st "hint" = (st, [], true)
    ∧ handle_command exec st "next" = (st, [], true)
    ∧ handle_command exec st "answer" = (st, [], true)
    ∧ handle_command exec st "skip" = (st, [], true)
    ∧ show_current_lesson st = (st, [Event.errorBox "Lesson not found!"])
    ∧ handle_command exec st "clear" =
        (st, [Event.screenCleared, Event.banner,
              Event.errorBox "Lesson not found!"], true) := by
  refine ⟨?_, ?_, ?_, ?_, show_current_lesson_none st h, ?_⟩
  · show hintBranch st (get_lesson_by_id st.progress.current_lesson) = (st, [], true)
    rw [h]
    try rfl
  · show nextBranch st (get_lesson_by_id st.progress.current_lesson) = (st, [], true)
    rw [h]
    try rfl
  · show (match get_lesson_by_id st.progress.current_lesson with
      | some (lesson, _) => (st, [Event.answerBox lesson.answer], true)
      | none => (st, [], true)) = (st, [], true)
    rw [h]
    try rfl
  · show skipBranch st (get_lesson_by_id st.progress.current_lesson) = (st, [], true)
    rw [h]
    try rfl
  · show clearBranch st =
      (st, [Event.screenCleared, Event.banner,
            Event.errorBox "Lesson not found!"], true)
    unfold clearBranch
    rw [show_current_lesson_none st h]
    try rfl

set_option maxRecDepth 10000 in
/-- Witness for C6 (amended) at the corrupted-progress coach. -/
theorem c6_witness :
    handle_command execAlwaysOk coachBad "hint" = (coachBad, [], true)
    ∧ handle_command execAlwaysOk coachBad "next" = (coachBad, [], true)
    ∧ handle_command execAlwaysOk coachBad "answer" = (coachBad, [], true)
    ∧ handle_command execAlwaysOk coachBad "skip" = (coachBad, [], true)
    ∧ show_current_lesson coachBad = (coachBad, [Event.errorBox "Lesson not found!"])
    ∧ handle_command execAlwaysOk coachBad "clear" =
        (coachBad, [Event.screenCleared, Event.banner,
              Event.errorBox "Lesson not found!"], true) :=
  c6_unresolvable_lesson execAlwaysOk coachBad (by decide)


/-! ## Claim C7 — executor errors are isolated; last_query always updated -/

/-- C7: for both the explicit `run` form and heuristically recognized bare
SQL, the resulting state is exactly the old state with `last_query` set to
the submitted string (so progress and both cursors are unchanged) and the
loop continues, in both outcomes; and when the executor returns an error the
only output is the rendered error box. -/
theorem c7_executor_error_isolated :
    (∀ (exec : Executor) (st : Coach) (input : String),
      strStartsWith (pyLower (pyStrip input)) "run " = true →
      (handle_command exec st input).1 =
        { st with last_query := some (pyStrip (strDrop (pyStrip input) 4)) } ∧
      (handle_command exec st input).2.2 = true) ∧
    (∀ (exec : Executor) (st : Coach) (input e : String),
      strStartsWith (pyLower (pyStrip input)) "run " = true →
      exec (pyStrip (strDrop (pyStrip input) 4)) = Except.error e →
      handle_command exec st input =
        ({ st with last_query := some (pyStrip (strDrop (pyStrip input) 4)) },
         [Event.errorBox ("SQL Error:\n" ++ e)], true)) ∧
    (∀ (exec : Executor) (st : Coach) (input : String),
      isBareSql input →
      (handle_command exec st input).1 =
        { st with last_query := some (pyStrip input) } ∧
      (handle_command exec st input).2.2 = true) ∧
    (∀ (exec : Executor) (st : Coach) (input e : String),
      isBareSql input →
      exec (pyStrip input) = Except.error e →
      handle_command exec st input =
        ({ st with last_query := some (pyStrip input) },
         [Event.errorBox ("SQL Error:\n" ++ e)], true)) := by
  refine ⟨?_, ?_, ?_, ?_⟩
  · intro exec st input h
    rw [hc_eq_run exec st input (run_prefix_ne_empty input h) h]
    exact ⟨runBranch_state _ _ _ _, runBranch_continue _ _ _ _⟩
  · intro exec st input e h hexec
    rw [hc_eq_run exec st input (run_prefix_ne_empty input h) h]
    exact runBranch_err _ _ _ _ e hexec
  · intro exec st input hb
    obtain ⟨h1, h2, h3, h4, h5, h6, h7, h8, h9, h10, h11, h12, h13, h14, h15, h16⟩ := hb
    rw [hc_eq_bare exec st input h1 h2 h3 h4 h5 h6 h7 h8 h9 h10 h11 h12 h13 h14 h15 h16]
    exact ⟨bareSqlBranch_state _ _ _, bareSqlBranch_continue _ _ _⟩
  · intro exec st input e hb hexec
    obtain ⟨h1, h2, h3, h4, h5, h6, h7, h8, h9, h10, h11, h12, h13, h14, h15, h16⟩ := hb
    rw [hc_eq_bare exec st input h1 h2 h3 h4 h5 h6 h7 h8 h9 h10 h11 h12 h13 h14 h15 h16]
    exact bareSqlBranch_err _ _ _ e hexec

set_option maxRecDepth 10000 in
/-- Witness for C7: a failing executor on `run selekt 1` and on the bare
input `select 1 from nowhere` leaves everything but `last_query` unchanged
and renders the error box. -/
theorem c7_witness :
    ((handle_command execAlwaysErr coach0 "run selekt 1").1 =
        { coach0 with last_query := some "selekt 1" } ∧
      (handle_command execAlwaysErr coach0 "run selekt 1").2.2 = true)
    ∧ handle_command execAlwaysErr coach0 "run selekt 1" =
        ({ coach0 with last_query := some "selekt 1" },
         [Event.errorBox ("SQL Error:\n" ++ "no such table: t")], true)
    ∧ ((handle_command execAlwaysErr coach0 "select 1 from nowhere").1 =
        { coach0 with last_query := some "select 1 from nowhere" } ∧
      (handle_command execAlwaysErr coach0 "select 1 from nowhere").2.2 = true)
    ∧ handle_command execAlwaysErr coach0 "select 1 from nowhere" =
        ({ coach0 with last_query := some "select 1 from nowhere" },
         [Event.errorBox ("SQL Error:\n" ++ "no such table: t")], true) :=
  ⟨c7_executor_error_isolated.1 execAlwaysErr coach0 "run selekt 1" (by decide),
   c7_executor_error_isolated.2.1 execAlwaysErr coach0 "run selekt 1"
     "no such table: t" (by decide) rfl,
   c7_executor_error_isolated.2.2.1 execAlwaysErr coach0 "select 1 from nowhere"
     (by decide),
   c7_executor_error_isolated.2.2.2 execAlwaysErr coach0 "select 1 from nowhere"
     "no such table: t" (by decide) rfl⟩

/-! ## Claim C2 — skip: completion marking, persistence, last lesson -/

set_option maxRecDepth 10000 in
/-- C2 counterexample: `skip` on the last lesson ("4.3") persists nothing —
no save event is emitted — even though the completion mark was added to the
in-memory progress, refuting the claim's unconditional "progress is
persisted". -/
theorem c2_counterexample :
    savedSnapshots (handle_command execAlwaysOk coachLast "skip").2.1 = []
    ∧ (handle_command execAlwaysOk coachLast "skip").1.progress.completed_lessons
        = ["4.3"] := by
  decide

theorem skipBranch_next (st : Coach) (lesson : Lesson) (phase : Phase) (nid : String)
    (hn : get_next_lesson_id lesson.id = some nid) :
    skipBranch st (some (lesson, phase)) =
      ((show_current_lesson
          { st with progress :=
              { st.progress with
                current_lesson := nid,
                completed_lessons :=
                  completedAfterSkip st.progress.completed_lessons lesson.id } }).1,
       [Event.saved
          { st.progress with
            current_lesson := nid,
            completed_lessons :=
              completedAfterSkip st.progress.completed_lessons lesson.id },
        Event.screenCleared, Event.banner] ++
       (show_current_lesson
          { st with progress :=
              { st.progress with
                current_lesson := nid,
                completed_lessons :=
                  completedAfterSkip st.progress.completed_lessons lesson.id } }).2,
       true) := by
  show skipLesson st lesson = _
  unfold skipLesson
  rw [hn]

theorem skipBranch_last (st : Coach) (lesson : Lesson) (phase : Phase)
    (hn : get_next_lesson_id lesson.id = none) :
    skipBranch st (some (lesson, phase)) =
      ({ st with progress :=
          { st.progress with completed_lessons :=
              completedAfterSkip st.progress.completed_lessons lesson.id } },
       [Event.successBox "Congratulations! You\x27ve completed all lessons!"], true) := by
  show skipLesson st lesson = _
  unfold skipLesson
  rw [hn]

/-- C2 (amended): for every `skip` with a resolvable current lesson, the
lesson's id is recorded in `completed_lesson_ids` with no duplicate ever
created; when a next lesson exists the current lesson advances to it and
exactly the new progress is persisted; when the current lesson is the last
one, `current_lesson_id` is unchanged, *nothing is persisted* (the
completion mark lives only in memory until some later save), and a second
`skip` changes neither the completion list nor the current lesson. -/
theorem c2_skip_behavior (exec : Executor) (st : Coach) (lesson : Lesson) (phase : Phase)
    (h : get_lesson_by_id st.progress.current_lesson = some (lesson, phase)) :
    (lesson.id ∈ (handle_command exec st "skip").1.progress.completed_lessons)
    ∧ (st.progress.completed_lessons.Nodup →
        (handle_command exec st "skip").1.progress.completed_lessons.Nodup)
    ∧ (∀ nid, get_next_lesson_id lesson.id = some nid →
        (handle_command exec st "skip").1.progress.current_lesson = nid ∧
        savedSnapshots (handle_command exec st "skip").2.1 =
          [(handle_command exec st "skip").1.progress])
    ∧ (get_next_lesson_id lesson.id = none →
        (handle_command exec st "skip").1.progress.current_lesson
            = st.progress.current_lesson
        ∧ savedSnapshots (handle_command exec st "skip").2.1 = []
        ∧ (handle_command exec (handle_command exec st "skip").1 "skip").1.progress.completed_lessons
            = (handle_command exec st "skip").1.progress.completed_lessons
        ∧ (handle_command exec (handle_command exec st "skip").1 "skip").1.progress.current_lesson
            = (handle_command exec st "skip").1.progress.current_lesson) := by
  have hd : handle_command exec st "skip" = skipBranch st (some (lesson, phase)) := by
    show skipBranch st (get_lesson_by_id st.progress.current_lesson) = _
    rw [h]
  cases hn : get_next_lesson_id lesson.id with
  | some nid =>
      rw [hd, skipBranch_next st lesson phase nid hn]
      refine ⟨?_, ?_, ?_, ?_⟩
      · rw [show_current_lesson_progress]
        exact mem_completedAfterSkip _ _
      · intro hnd
        rw [show_current_lesson_progress]
        exact nodup_completedAfterSkip _ _ hnd
      · intro nid2 hn2
        cases hn2
        rw [show_current_lesson_progress]
        refine ⟨rfl, ?_⟩
        show _ :: savedSnapshots (show_current_lesson _).2 = _
        rw [savedSnapshots_show]
      · intro hcontra
        cases hcontra
  | none =>
      rw [hd, skipBranch_last st lesson phase hn]
      refine ⟨mem_completedAfterSkip _ _, ?_, ?_, ?_⟩
      · intro hnd
        exact nodup_completedAfterSkip _ _ hnd
      · intro nid2 hn2
        cases hn2
      · intro _
        have hd2 : handle_command exec
            ({ st with progress :=
                { st.progress with completed_lessons :=
                    completedAfterSkip st.progress.completed_lessons lesson.id } })
            "skip" = skipBranch
              ({ st with progress :=
                { st.progress with completed_lessons :=
                    completedAfterSkip st.progress.completed_lessons lesson.id } })
              (some (lesson, phase)) := by
          show skipBranch _ (get_lesson_by_id st.progress.current_lesson) = _
          rw [h]
        rw [hd2, skipBranch_last _ lesson phase hn]
        exact ⟨rfl, rfl, completedAfterSkip_idem _ _, rfl⟩

set_option maxRecDepth 10000 in
/-- Witness for C2 at concrete states: skipping lesson "1.1" advances to
"1.2" and persists exactly the new progress; skipping the last lesson "4.3"
leaves the current lesson unchanged and persists nothing, also across a
second invocation. -/
theorem c2_witness :
    (lesson_1_1.id ∈ (handle_command execAlwaysOk coach0 "skip").1.progress.completed_lessons)
    ∧ ((handle_command execAlwaysOk coach0 "skip").1.progress.current_lesson = "1.2" ∧
        savedSnapshots (handle_command execAlwaysOk coach0 "skip").2.1 =
          [(handle_command execAlwaysOk coach0 "skip").1.progress])
    ∧ ((handle_command execAlwaysOk coachLast "skip").1.progress.current_lesson
          = coachLast.progress.current_lesson
      ∧ savedSnapshots (handle_command execAlwaysOk coachLast "skip").2.1 = []
      ∧ (handle_command execAlwaysOk (handle_command execAlwaysOk coachLast "skip").1 "skip").1.progress.completed_lessons
          = (handle_command execAlwaysOk coachLast "skip").1.progress.completed_lessons
      ∧ (handle_command execAlwaysOk (handle_command execAlwaysOk coachLast "skip").1 "skip").1.progress.current_lesson
          = (handle_command execAlwaysOk coachLast "skip").1.progress.current_lesson) :=
  ⟨(c2_skip_behavior execAlwaysOk coach0 lesson_1_1 phase_1 (by decide)).1,
   (c2_skip_behavior execAlwaysOk coach0 lesson_1_1 phase_1 (by decide)).2.2.1 "1.2"
     (by decide),
   (c2_skip_behavior execAlwaysOk coachLast lesson_4_3 phase_4 (by decide)).2.2.2
     (by decide)⟩


/-! ## Claim C1 — answer matching on submission -/

theorem clearBranch_no_success (st : Coach) (m : String) :
    Event.successBox m ∉ (clearBranch st).2.1 := by
  unfold clearBranch
  intro h
  rw [List.mem_append] at h
  rcases h with h | h
  · simp at h
  · exact absurd h (show_current_lesson_no_success _ m)

theorem runBranch_ok_match (exec : Executor) (st : Coach) (sql : String)
    (lesson : Lesson) (phase : Phase) (res : QueryResult)
    (hexec : exec sql = Except.ok res)
    (hmatch : normalize_sql sql = normalize_sql lesson.answer) :
    runBranch exec st sql (some (lesson, phase)) =
      ({ st with last_query := some sql },
       [Event.info "Query executed successfully!",
        Event.tableView res.columns res.rows,
        Event.successBox (matchedMsg (lesson.follow_up.getD "Try the next lesson!"))],
       true) := by
  have h1 : runBranch exec st sql (some (lesson, phase)) =
      runOk st sql res (some (lesson, phase)) := by
    unfold runBranch
    rw [hexec]
  rw [h1]
  show (if normalize_sql sql = normalize_sql lesson.answer then _ else _) = _
  rw [if_pos hmatch]

set_option maxRecDepth 10000 in
/-- C1 counterexample: submitting the literal answer of the current lesson
"1.1" as *bare* input (heuristically recognized as SQL because it contains
`select`) executes the query but renders no matched/success payload at all,
refuting the claim for the bare-input form. -/
theorem c1_counterexample :
    handle_command execAlwaysOk coach0
        "SELECT campaign_name, bidding_strategy FROM campaigns;" =
      ({ coach0 with
          last_query := some "SELECT campaign_name, bidding_strategy FROM campaigns;" },
       [Event.info "Query executed!", Event.tableView [] []], true)
    ∧ hasSuccessBox (handle_command execAlwaysOk coach0
        "SELECT campaign_name, bidding_strategy FROM campaigns;").2.1 = false := by
  decide

/-- C1 (amended): while lesson L is current, a query submitted via the
explicit `run` form whose normalization equals L's normalized answer — in
particular the literal answer, also with different letter case and extra
internal whitespace — triggers, when execution succeeds, the success payload
carrying L's follow_up.  Bare input heuristically recognized as SQL never
does: a success box only ever arises from the `run` branch or from `skip`
completion. -/
theorem c1_answer_match :
    (∀ (exec : Executor) (st : Coach) (input : String) (lesson : Lesson)
        (phase : Phase) (res : QueryResult),
      get_lesson_by_id st.progress.current_lesson = some (lesson, phase) →
      strStartsWith (pyLower (pyStrip input)) "run " = true →
      exec (pyStrip (strDrop (pyStrip input) 4)) = Except.ok res →
      normalize_sql (pyStrip (strDrop (pyStrip input) 4)) =
          normalize_sql lesson.answer →
      handle_command exec st input =
        ({ st with last_query := some (pyStrip (strDrop (pyStrip input) 4)) },
         [Event.info "Query executed successfully!",
          Event.tableView res.columns res.rows,
          Event.successBox
            (matchedMsg (lesson.follow_up.getD "Try the next lesson!"))], true)) ∧
    (∀ (exec : Executor) (st : Coach) (input m : String),
      Event.successBox m ∈ (handle_command exec st input).2.1 →
      strStartsWith (pyLower (pyStrip input)) "run " = true ∨
      pyLower (pyStrip input) = "skip") := by
  constructor
  · intro exec st input lesson phase res hres hrun hexec hmatch
    rw [hc_eq_run exec st input (run_prefix_ne_empty input hrun) hrun, hres]
    exact runBranch_ok_match exec st _ lesson phase res hexec hmatch
  · intro exec st input m
    refine handle_command_elim
      (fun r => Event.successBox m ∈ r.2.1 →
        strStartsWith (pyLower (pyStrip input)) "run " = true ∨
        pyLower (pyStrip input) = "skip")
      exec st input ?_ ?_ ?_ ?_ ?_ ?_ ?_ ?_ ?_ ?_ ?_ ?_ ?_ ?_ ?_ ?_ ?_
    · intro _ hm
      simp at hm
    · intro hrun _
      exact Or.inl hrun
    · intro _ hm
      exact absurd hm (hintBranch_no_success _ _ m)
    · intro _ hm
      exact absurd hm (nextBranch_no_success _ _ m)
    · intro _ hm
      revert hm
      cases hx : get_lesson_by_id st.progress.current_lesson with
      | some lp =>
          obtain ⟨l, ph⟩ := lp
          intro hm
          simp at hm
      | none =>
          intro hm
          simp at hm
    · intro _ hm
      revert hm
      cases hq : st.last_query with
      | some q => intro hm; simp at hm
      | none => intro hm; simp at hm
    · intro _ hm
      simp at hm
    · intro _ hm
      simp at hm
    · intro hskip _
      exact Or.inr hskip
    · intro _ hm
      exact absurd hm (gotoBranch_no_success _ _ m)
    · intro _ hm
      simp at hm
    · intro _ hm
      simp at hm
    · intro _ hm
      simp at hm
    · intro _ hm
      exact absurd hm (clearBranch_no_success _ m)
    · intro _ hm
      simp at hm
    · intro _ hm
      exact absurd hm (bareSqlBranch_no_success _ _ _ m)
    · intro hm
      simp at hm

set_option maxRecDepth 10000 in
/-- Witness for C1: via `run`, the literal answer of lesson "1.1" and a
case/whitespace variant of it both trigger the success payload with the
lesson's follow-up; and the success box emitted by `skip` on the last lesson
indeed falls under the `skip` disjunct. -/
theorem c1_witness :
    handle_command execAlwaysOk coach0
        "run SELECT campaign_name, bidding_strategy FROM campaigns;" =
      ({ coach0 with
          last_query := some "SELECT campaign_name, bidding_strategy FROM campaigns;" },
       [Event.info "Query executed successfully!",
        Event.tableView [] [],
        Event.successBox
          (matchedMsg (lesson_1_1.follow_up.getD "Try the next lesson!"))], true)
    ∧ handle_command execAlwaysOk coach0
        "run   SeLeCt  campaign_name,   bidding_strategy  FROM campaigns;" =
      ({ coach0 with
          last_query := some "SeLeCt  campaign_name,   bidding_strategy  FROM campaigns;" },
       [Event.info "Query executed successfully!",
        Event.tableView [] [],
        Event.successBox
          (matchedMsg (lesson_1_1.follow_up.getD "Try the next lesson!"))], true)
    ∧ (strStartsWith (pyLower (pyStrip "skip")) "run " = true ∨
        pyLower (pyStrip "skip") = "skip") :=
  ⟨c1_answer_match.1 execAlwaysOk coach0
      "run SELECT campaign_name, bidding_strategy FROM campaigns;"
      lesson_1_1 phase_1 ⟨[], []⟩ (by decide) (by decide) rfl (by decide),
   c1_answer_match.1 execAlwaysOk coach0
      "run   SeLeCt  campaign_name,   bidding_strategy  FROM campaigns;"
      lesson_1_1 phase_1 ⟨[], []⟩ (by decide) (by decide) rfl (by decide),
   c1_answer_match.2 execAlwaysOk coachLast "skip"
      "Congratulations! You\x27ve completed all lessons!" (by decide)⟩


/-! ## Claim C3 — hint cursor dynamics -/

set_option maxRecDepth 10000 in
/-- C3 counterexample: `reset` sets the hint cursor from 1 back to 0 while
the current lesson id stays "1.1" — so the cursor is not monotonically
non-decreasing while the lesson is unchanged, and it resets without a lesson
change (`clear`/`cls` behave likewise). -/
theorem c3_counterexample :
    (handle_command execAlwaysOk coachHinted "reset").1.progress.current_lesson
        = coachHinted.progress.current_lesson
    ∧ (handle_command execAlwaysOk coachHinted "reset").1.current_hint
        < coachHinted.current_hint := by
  decide

theorem skipLesson_hint_mono (st : Coach) (l : Lesson)
    (hid : l.id = st.progress.current_lesson)
    (heq : (skipLesson st l).1.progress.current_lesson = st.progress.current_lesson) :
    st.current_hint ≤ (skipLesson st l).1.current_hint := by
  unfold skipLesson at heq ⊢
  revert heq
  cases hn : get_next_lesson_id l.id with
  | none => exact fun _ => Nat.le_refl _
  | some nid =>
      intro heq
      rw [show_current_lesson_progress] at heq
      have h2 : nid = st.progress.current_lesson := heq
      exact absurd (h2.trans hid.symm) (get_next_lesson_id_ne _ _ hn)

theorem skipLesson_cursor_zero (st : Coach) (l : Lesson)
    (hne : (skipLesson st l).1.progress.current_lesson ≠ st.progress.current_lesson) :
    (skipLesson st l).1.current_hint = 0 := by
  unfold skipLesson at hne ⊢
  revert hne
  cases hn : get_next_lesson_id l.id with
  | none => exact fun hne => absurd rfl hne
  | some nid =>
      intro _
      have hs : (get_lesson_by_id nid).isSome :=
        get_lesson_by_id_isSome_of_mem nid (get_next_lesson_id_mem _ _ hn)
      exact (show_cursor_zero _ hs).1

theorem gotoBranch_cursor_zero (st : Coach) (lessonId : String)
    (hne : (gotoBranch st lessonId).1.progress.current_lesson
        ≠ st.progress.current_lesson) :
    (gotoBranch st lessonId).1.current_hint = 0 := by
  unfold gotoBranch at hne ⊢
  revert hne
  cases hf : get_lesson_by_id lessonId with
  | none => exact fun hne => absurd rfl hne
  | some lp =>
      intro _
      have hs : (get_lesson_by_id lessonId).isSome := by
        rw [hf]
        rfl
      exact (show_cursor_zero _ hs).1

/-- C3 (amended): the hint cursor is non-decreasing under every command that
leaves the current lesson id unchanged, *except* the explicit cursor
resetters `reset`, `clear`/`cls` and `lesson <id>`; whenever a command does
change the current lesson id the cursor is reset to 0; and requesting a hint
when the cursor has reached `len(hints)` never errors: it renders the
exhaustion message and leaves the state untouched. -/
theorem c3_hint_cursor :
    (∀ (exec : Executor) (st : Coach) (input : String),
      ¬ isCursorReset input →
      (handle_command exec st input).1.progress.current_lesson
          = st.progress.current_lesson →
      st.current_hint ≤ (handle_command exec st input).1.current_hint) ∧
    (∀ (exec : Executor) (st : Coach) (input : String),
      (handle_command exec st input).1.progress.current_lesson
          ≠ st.progress.current_lesson →
      (handle_command exec st input).1.current_hint = 0) ∧
    (∀ (exec : Executor) (st : Coach) (lesson : Lesson) (phase : Phase),
      get_lesson_by_id st.progress.current_lesson = some (lesson, phase) →
      lesson.hints.length ≤ st.current_hint →
      handle_command exec st "hint" =
        (st, [Event.info "No more hints! Type \x27answer\x27 to see the solution."],
         true)) := by
  refine ⟨?_, ?_, ?_⟩
  · intro exec st input hnc
    refine handle_command_elim
      (fun r => r.1.progress.current_lesson = st.progress.current_lesson →
        st.current_hint ≤ r.1.current_hint)
      exec st input ?_ ?_ ?_ ?_ ?_ ?_ ?_ ?_ ?_ ?_ ?_ ?_ ?_ ?_ ?_ ?_ ?_
    · intro _ _
      exact Nat.le_refl _
    · intro _ _
      rw [runBranch_state]
    · intro _ _
      exact hintBranch_mono st _
    · intro _ _
      rw [nextBranch_hint]
    · intro _
      cases hx : get_lesson_by_id st.progress.current_lesson with
      | some lp =>
          obtain ⟨l, ph⟩ := lp
          exact fun _ => Nat.le_refl _
      | none => exact fun _ => Nat.le_refl _
    · intro _
      cases hq : st.last_query with
      | some q => exact fun _ => Nat.le_refl _
      | none => exact fun _ => Nat.le_refl _
    · intro _ _
      exact Nat.le_refl _
    · intro _ _
      exact Nat.le_refl _
    · -- skip
      intro _
      cases hx : get_lesson_by_id st.progress.current_lesson with
      | none => exact fun _ => Nat.le_refl _
      | some lp =>
          obtain ⟨l, ph⟩ := lp
          exact fun heq =>
            skipLesson_hint_mono st l (get_lesson_by_id_id _ _ _ hx) heq
    · intro hg
      exact absurd (Or.inr (Or.inr (Or.inr hg))) hnc
    · intro _ _
      exact Nat.le_refl _
    · intro hg
      exact absurd (Or.inl hg) hnc
    · intro _ _
      exact Nat.le_refl _
    · intro hg
      rcases hg with hg | hg
      · exact absurd (Or.inr (Or.inl hg)) hnc
      · exact absurd (Or.inr (Or.inr (Or.inl hg))) hnc
    · intro _ _
      exact Nat.le_refl _
    · intro _ _
      rw [bareSqlBranch_state]
    · intro _
      exact Nat.le_refl _
  · intro exec st input
    refine handle_command_elim
      (fun r => r.1.progress.current_lesson ≠ st.progress.current_lesson →
        r.1.current_hint = 0)
      exec st input ?_ ?_ ?_ ?_ ?_ ?_ ?_ ?_ ?_ ?_ ?_ ?_ ?_ ?_ ?_ ?_ ?_
    · intro _ hne
      exact absurd rfl hne
    · intro _ hne
      refine absurd ?_ hne
      rw [runBranch_state]
    · intro _ hne
      refine absurd ?_ hne
      rw [hintBranch_progress]
    · intro _ hne
      refine absurd ?_ hne
      rw [nextBranch_progress]
    · intro _
      cases hx : get_lesson_by_id st.progress.current_lesson with
      | some lp =>
          obtain ⟨l, ph⟩ := lp
          exact fun hne => absurd rfl hne
      | none => exact fun hne => absurd rfl hne
    · intro _
      cases hq : st.last_query with
      | some q => exact fun hne => absurd rfl hne
      | none => exact fun hne => absurd rfl hne
    · intro _ hne
      exact absurd rfl hne
    · intro _ hne
      exact absurd rfl hne
    · -- skip
      intro _
      cases hx : get_lesson_by_id st.progress.current_lesson with
      | none => exact fun hne => absurd rfl hne
      | some lp =>
          obtain ⟨l, ph⟩ := lp
          exact fun hne => skipLesson_cursor_zero st l hne
    · -- goto
      intro _
      exact fun hne => gotoBranch_cursor_zero st _ hne
    · intro _ hne
      exact absurd rfl hne
    · intro _ _
      rfl
    · intro _ hne
      exact absurd rfl hne
    · intro _ hne
      refine absurd ?_ hne
      rw [clearBranch_progress]
    · intro _ hne
      exact absurd rfl hne
    · intro _ hne
      refine absurd ?_ hne
      rw [bareSqlBranch_state]
    · intro hne
      exact absurd rfl hne
  · intro exec st lesson phase hres hle
    show hintBranch st (get_lesson_by_id st.progress.current_lesson) = _
    rw [hres]
    show (if st.current_hint < lesson.hints.length then _ else _) = _
    rw [if_neg (Nat.not_lt.mpr hle)]

set_option maxRecDepth 10000 in
/-- Witness for C3: a non-resetting command (`schema`) keeps the cursor
non-decreasing, `skip` away from lesson "1.1" resets it to 0, and a fourth
`hint` on the three-hint lesson "1.1" renders the exhaustion message without
moving the cursor. -/
theorem c3_witness :
    (coachHinted.current_hint ≤
      (handle_command execAlwaysOk coachHinted "schema").1.current_hint)
    ∧ (handle_command execAlwaysOk coach0 "skip").1.current_hint = 0
    ∧ handle_command execAlwaysOk coachHintsDone "hint" =
        (coachHintsDone,
         [Event.info "No more hints! Type \x27answer\x27 to see the solution."], true) :=
  ⟨c3_hint_cursor.1 execAlwaysOk coachHinted "schema" (by decide) (by decide),
   c3_hint_cursor.2.1 execAlwaysOk coach0 "skip" (by decide),
   c3_hint_cursor.2.2 execAlwaysOk coachHintsDone lesson_1_1 phase_1 (by decide)
     (by decide)⟩


/-! ## Claim C5 — shape of solution_steps -/

set_option maxRecDepth 10000 in
/-- C5 counterexample: exactly the lessons "4.2" and "4.3" of the curriculum
have a `solution_steps` sequence that is *not* non-decreasing in string
length (in each, an abbreviated `(...)`-step is shorter than its
predecessor), refuting the claim's universal non-decreasing property. -/
theorem c5_counterexample :
    (allLessons.filter (fun l => !stepsNonDecr l)).map Lesson.id = ["4.2", "4.3"] := by
  decide

set_option maxRecDepth 10000 in
/-- C5 (amended): every lesson of the curriculum has at least one solution
step and its final step is textually equal to its answer; the steps are
non-decreasing in string length for every lesson except "4.2" and "4.3". -/
theorem c5_solution_steps :
    ∀ l ∈ allLessons,
      1 ≤ l.solution_steps.length ∧
      l.solution_steps.getLast? = some l.answer ∧
      (l.id ≠ "4.2" → l.id ≠ "4.3" → stepsNonDecr l = true) := by
  decide

set_option maxRecDepth 10000 in
/-- Witness for C5 at lesson "1.1". -/
theorem c5_witness :
    1 ≤ lesson_1_1.solution_steps.length ∧
    lesson_1_1.solution_steps.getLast? = some lesson_1_1.answer ∧
    (lesson_1_1.id ≠ "4.2" → lesson_1_1.id ≠ "4.3" → stepsNonDecr lesson_1_1 = true) :=
  c5_solution_steps lesson_1_1 (by decide)

/-! ## Claim C8 — explain -/

theorem ite_cons_append (P : Prop) [Decidable P] (x : Clause) (rest : List Clause) :
    ((if P then [x] else []) ++ rest) = if P then x :: rest else rest := by
  split <;> simp

/-- C8 counterexample: on the stored query `select 1 limit` the code's
pattern search (which requires a trailing space in `"limit "`) renders only
the SELECT step, while the claim's bare-keyword substring search would also
include LIMIT. -/
theorem c8_counterexample :
    executionSteps "select 1 limit" = [Clause.selectClause]
    ∧ executionStepsClaim "select 1 limit" = [Clause.selectClause, Clause.limit] := by
  decide

theorem clauseSteps_eq_filter (l : String) :
    ∀ cs : List Clause,
      clauseSteps l cs = cs.filter (fun c => isSubstring (clausePattern c) l) := by
  intro cs
  induction cs with
  | nil => rfl
  | cons c rest ih =>
      show ((if isSubstring (clausePattern c) l then [c] else []) ++ clauseSteps l rest)
          = _
      rw [List.filter_cons, ih, ite_cons_append]

theorem executionSteps_eq (sql : String) :
    executionSteps sql = clauseSteps (pyLower sql) clauseOrder := by
  simp only [executionSteps, clauseSteps, clauseOrder, clausePattern,
    List.append_assoc, List.append_nil]

/-- C8 (amended): `explain` with no stored query renders the run-first
prompt and changes nothing; with a stored query it renders exactly the
clauses whose *code patterns* — `"with "`, `"from "`, `"join "`, `"where "`,
`"group by"`, `"having "`, `"select "`, `"distinct"`, `"order by"`,
`"limit "` (trailing space required on seven of the ten) — occur in the
lowercased query, in the fixed order CTE, FROM, JOIN, WHERE, GROUP BY,
HAVING, SELECT, DISTINCT, ORDER BY, LIMIT; equivalently, the rendered list
is the fixed order filtered by pattern presence. -/
theorem c8_explain :
    (∀ sql : String,
      executionSteps sql =
        clauseOrder.filter (fun c => isSubstring (clausePattern c) (pyLower sql))) ∧
    (∀ (exec : Executor) (st : Coach) (q : String), st.last_query = some q →
      handle_command exec st "explain" =
        (st, [Event.explainView (executionSteps q)], true)) ∧
    (∀ (exec : Executor) (st : Coach), st.last_query = none →
      handle_command exec st "explain" =
        (st, [Event.info
          "Run a query first, then type \x27explain\x27 to see execution order."], true)) := by
  refine ⟨?_, ?_, ?_⟩
  · intro sql
    rw [executionSteps_eq sql, clauseSteps_eq_filter (pyLower sql) clauseOrder]
  · intro exec st q hq
    show (match st.last_query with
      | some q => (st, [Event.explainView (executionSteps q)], true)
      | none =>
          (st, [Event.info
            "Run a query first, then type \x27explain\x27 to see execution order."], true))
      = _
    rw [hq]
  · intro exec st hq
    show (match st.last_query with
      | some q => (st, [Event.explainView (executionSteps q)], true)
      | none =>
          (st, [Event.info
            "Run a query first, then type \x27explain\x27 to see execution order."], true))
      = _
    rw [hq]

set_option maxRecDepth 10000 in
/-- Witness for C8: the filter identity at `select 1 limit`, `explain` with a
stored query, and `explain` with none. -/
theorem c8_witness :
    executionSteps "select 1 limit" =
      clauseOrder.filter
        (fun c => isSubstring (clausePattern c) (pyLower "select 1 limit"))
    ∧ handle_command execAlwaysOk coachWithQuery "explain" =
        (coachWithQuery, [Event.explainView (executionSteps "select 1 limit")], true)
    ∧ handle_command execAlwaysOk coach0 "explain" =
        (coach0, [Event.info
          "Run a query first, then type \x27explain\x27 to see execution order."], true) :=
  ⟨c8_explain.1 "select 1 limit",
   c8_explain.2.1 execAlwaysOk coachWithQuery "select 1 limit" rfl,
   c8_explain.2.2 execAlwaysOk coach0 rfl⟩

end SqlCoach

namespace SqlCoach

/-! ## Character-level lemmas for normalization -/

theorem char_toNat_ofNat {n : Nat} (h : n < 55296) : (Char.ofNat n).toNat = n := by
  have hv : n.isValidChar := Or.inl h
  unfold Char.ofNat
  rw [dif_pos hv]
  unfold Char.ofNatAux Char.toNat UInt32.toNat
  simp

theorem toLower_eq_self_of_not_upper {c : Char}
    (h : ¬ (c.toNat ≥ 65 ∧ c.toNat ≤ 90)) : c.toLower = c := by
  unfold Char.toLower
  rw [if_neg h]

theorem toLower_toNat_of_upper {c : Char} (h : c.toNat ≥ 65 ∧ c.toNat ≤ 90) :
    (c.toLower).toNat = c.toNat + 32 := by
  unfold Char.toLower
  rw [if_pos h]
  exact char_toNat_ofNat (by omega)

theorem toLower_idem (c : Char) : c.toLower.toLower = c.toLower := by
  by_cases h : c.toNat ≥ 65 ∧ c.toNat ≤ 90
  · have ht := toLower_toNat_of_upper h
    apply toLower_eq_self_of_not_upper
    rw [ht]
    omega
  · rw [toLower_eq_self_of_not_upper h, toLower_eq_self_of_not_upper h]


/-! ## List-level lemmas for normalization -/

theorem dropWhile_eq_self_of_head {α : Type} (p : α → Bool) (l : List α)
    (h : ∀ c, l.head? = some c → p c = false) : l.dropWhile p = l := by
  cases l with
  | nil => rfl
  | cons a t => exact List.dropWhile_cons_of_neg (by simp [h a rfl])

theorem head?_dropWhile_false {α : Type} (p : α → Bool) (l : List α) (c : α)
    (h : (l.dropWhile p).head? = some c) : p c = false := by
  have hm := List.head?_dropWhile_not p l
  rw [h] at hm
  exact hm

theorem head?_revDropRev {α : Type} (p : α → Bool) (l : List α) (c : α)
    (h : ((l.reverse.dropWhile p).reverse).head? = some c) : l.head? = some c := by
  obtain ⟨pre, hpre⟩ := List.dropWhile_suffix (l := l.reverse) p
  have hl : l = (l.reverse.dropWhile p).reverse ++ pre.reverse := by
    rw [← List.reverse_append, hpre, List.reverse_reverse]
  cases hd : (l.reverse.dropWhile p).reverse with
  | nil => rw [hd] at h; simp at h
  | cons a t =>
      rw [hd] at h
      rw [hl, hd]
      simpa using h

theorem getLast?_revDropRev_not {α : Type} (p : α → Bool) (l : List α) (c : α)
    (h : ((l.reverse.dropWhile p).reverse).getLast? = some c) : p c = false := by
  rw [List.getLast?_reverse] at h
  exact head?_dropWhile_false p _ c h

theorem mem_revDropRev {α : Type} (p : α → Bool) (l : List α) (c : α)
    (h : c ∈ (l.reverse.dropWhile p).reverse) : c ∈ l := by
  rw [List.mem_reverse] at h
  have := List.dropWhile_subset (l := l.reverse) p h
  rwa [List.mem_reverse] at this

theorem map_toLower_id {l : List Char} (h : ∀ c ∈ l, Char.toLower c = c) :
    l.map Char.toLower = l := by
  induction l with
  | nil => rfl
  | cons a t ih =>
      rw [List.map_cons, h a (List.mem_cons_self a t), ih]
      intro c hc
      exact h c (List.mem_cons_of_mem a hc)


/-! ## collapseAux lemmas -/

theorem mem_collapseAux : ∀ (l : List Char) (b : Bool) (c : Char),
    c ∈ collapseAux b l → c = ' ' ∨ c ∈ l := by
  intro l
  induction l with
  | nil => intro b c h; simp [collapseAux] at h
  | cons a t ih =>
      intro b c h
      unfold collapseAux at h
      by_cases hw : isPyWs a
      · rw [if_pos hw] at h
        cases b with
        | true =>
            rcases ih true c h with h1 | h1
            · exact Or.inl h1
            · exact Or.inr (List.mem_cons_of_mem a h1)
        | false =>
            rcases List.mem_cons.mp h with h1 | h1
            · exact Or.inl h1
            · rcases ih true c h1 with h2 | h2
              · exact Or.inl h2
              · exact Or.inr (List.mem_cons_of_mem a h2)
      · rw [if_neg hw] at h
        rcases List.mem_cons.mp h with h1 | h1
        · exact Or.inr (h1 ▸ List.mem_cons_self a t)
        · rcases ih false c h1 with h2 | h2
          · exact Or.inl h2
          · exact Or.inr (List.mem_cons_of_mem a h2)

theorem ws_mem_collapseAux : ∀ (l : List Char) (b : Bool) (c : Char),
    c ∈ collapseAux b l → isPyWs c = true → c = ' ' := by
  intro l
  induction l with
  | nil => intro b c h _; simp [collapseAux] at h
  | cons a t ih =>
      intro b c h hws
      unfold collapseAux at h
      by_cases hw : isPyWs a
      · rw [if_pos hw] at h
        cases b with
        | true => exact ih true c h hws
        | false =>
            rcases List.mem_cons.mp h with h1 | h1
            · exact h1
            · exact ih true c h1 hws
      · rw [if_neg hw] at h
        rcases List.mem_cons.mp h with h1 | h1
        · exact absurd (h1 ▸ hws) (by simpa using hw)
        · exact ih false c h1 hws

theorem collapseAux_false_ne_nil : ∀ {l : List Char}, l ≠ [] → collapseAux false l ≠ [] := by
  intro l h
  cases l with
  | nil => exact absurd rfl h
  | cons a t =>
      unfold collapseAux
      by_cases hw : isPyWs a
      · rw [if_pos hw]
        simp
      · rw [if_neg hw]
        simp

theorem head?_collapseAux_false {l : List Char} {c : Char}
    (hh : l.head? = some c) (hw : isPyWs c = false) :
    (collapseAux false l).head? = some c := by
  cases l with
  | nil => simp at hh
  | cons a t =>
      have ha : a = c := by simpa using hh
      subst ha
      unfold collapseAux
      rw [if_neg (by simp [hw])]
      rfl

theorem getLast?_collapseAux : ∀ (l : List Char) (b : Bool) (c : Char),
    (collapseAux b l).getLast? = some c → c = ' ' ∨ l.getLast? = some c := by
  intro l
  induction l with
  | nil => intro b c h; simp [collapseAux] at h
  | cons a t ih =>
      intro b c h
      unfold collapseAux at h
      by_cases hw : isPyWs a
      · rw [if_pos hw] at h
        cases b with
        | true =>
            rcases ih true c h with h1 | h1
            · exact Or.inl h1
            · right
              cases t with
              | nil => simp at h1
              | cons x xs => rw [List.getLast?_cons_cons]; exact h1
        | false =>
            rw [if_neg Bool.false_ne_true] at h
            cases hct : collapseAux true t with
            | nil =>
                rw [hct] at h
                rw [List.getLast?_singleton] at h
                exact Or.inl (by simpa using h.symm)
            | cons y ys =>
                rw [hct, List.getLast?_cons_cons, ← hct] at h
                rcases ih true c h with h1 | h1
                · exact Or.inl h1
                · right
                  cases t with
                  | nil => simp at h1
                  | cons x xs => rw [List.getLast?_cons_cons]; exact h1
      · rw [if_neg hw] at h
        cases hct : collapseAux false t with
        | nil =>
            have ht : t = [] := by
              by_contra hne
              exact collapseAux_false_ne_nil hne hct
            rw [hct] at h
            rw [List.getLast?_singleton] at h
            subst ht
            right
            rw [List.getLast?_singleton]
            exact h
        | cons y ys =>
            rw [hct, List.getLast?_cons_cons, ← hct] at h
            rcases ih false c h with h1 | h1
            · exact Or.inl h1
            · right
              cases t with
              | nil => simp [collapseAux] at hct
              | cons x xs => rw [List.getLast?_cons_cons]; exact h1


/-! ## Canonical forms and idempotence of collapseWs -/

theorem canonAux_collapseAux : ∀ (l : List Char),
    canonAux false (collapseAux false l) = true ∧
    canonAux true (collapseAux true l) = true := by
  intro l
  induction l with
  | nil => exact ⟨rfl, rfl⟩
  | cons a t ih =>
      by_cases hw : isPyWs a
      · constructor
        · show canonAux false (if isPyWs a then
              (if false = true then collapseAux true t else ' ' :: collapseAux true t)
              else a :: collapseAux false t) = true
          rw [if_pos hw, if_neg Bool.false_ne_true]
          show canonAux false (' ' :: collapseAux true t) = true
          unfold canonAux
          rw [if_pos (by rfl : (' ' == ' ') = true)]
          simpa using ih.2
        · show canonAux true (if isPyWs a then
              (if true = true then collapseAux true t else ' ' :: collapseAux true t)
              else a :: collapseAux false t) = true
          rw [if_pos hw, if_pos rfl]
          exact ih.2
      · have haw : isPyWs a = false := by simpa using hw
        have hane : (a == ' ') = false := by
          cases hbe : (a == ' ') with
          | false => rfl
          | true =>
              have := eq_of_beq hbe
              rw [this] at haw
              simp [isPyWs] at haw
        constructor
        · show canonAux false (if isPyWs a then
              (if false = true then collapseAux true t else ' ' :: collapseAux true t)
              else a :: collapseAux false t) = true
          rw [if_neg (by simp [haw])]
          unfold canonAux
          rw [if_neg (by simp [hane])]
          simp [haw, ih.1]
        · show canonAux true (if isPyWs a then
              (if true = true then collapseAux true t else ' ' :: collapseAux true t)
              else a :: collapseAux false t) = true
          rw [if_neg (by simp [haw])]
          unfold canonAux
          rw [if_neg (by simp [hane])]
          simp [haw, ih.1]

theorem canonAux_fix : ∀ (u : List Char),
    (canonAux false u = true → collapseAux false u = u) ∧
    (canonAux true u = true → collapseAux true u = u) := by
  intro u
  induction u with
  | nil => exact ⟨fun _ => rfl, fun _ => rfl⟩
  | cons a t ih =>
      constructor
      · intro hc
        unfold canonAux at hc
        by_cases hsp : (a == ' ') = true
        · have ha : a = ' ' := eq_of_beq hsp
          rw [if_pos hsp] at hc
          simp only [Bool.not_false, Bool.true_and] at hc
          subst ha
          show (if isPyWs ' ' then
              (if false = true then collapseAux true t else ' ' :: collapseAux true t)
              else ' ' :: collapseAux false t) = ' ' :: t
          rw [if_pos (by rfl : isPyWs ' ' = true), if_neg Bool.false_ne_true,
            ih.2 hc]
        · have hsp' : (a == ' ') = false := by simpa using hsp
          rw [if_neg (by simp [hsp'])] at hc
          rw [Bool.and_eq_true, Bool.not_eq_true'] at hc
          show (if isPyWs a then
              (if false = true then collapseAux true t else ' ' :: collapseAux true t)
              else a :: collapseAux false t) = a :: t
          rw [if_neg (by simp [hc.1]), ih.1 hc.2]
      · intro hc
        unfold canonAux at hc
        by_cases hsp : (a == ' ') = true
        · rw [if_pos hsp] at hc
          simp at hc
        · have hsp' : (a == ' ') = false := by simpa using hsp
          rw [if_neg (by simp [hsp'])] at hc
          rw [Bool.and_eq_true, Bool.not_eq_true'] at hc
          show (if isPyWs a then
              (if true = true then collapseAux true t else ' ' :: collapseAux true t)
              else a :: collapseAux false t) = a :: t
          rw [if_neg (by simp [hc.1]), ih.1 hc.2]

theorem collapseWs_idem (l : List Char) : collapseWs (collapseWs l) = collapseWs l :=
  (canonAux_fix (collapseAux false l)).1 (canonAux_collapseAux l).1


/-! ## Conditional idempotence of normalize_sql -/

theorem mem_of_getLast? {α : Type} {l : List α} {c : α}
    (h : l.getLast? = some c) : c ∈ l := by
  rw [← List.head?_reverse] at h
  cases hr : l.reverse with
  | nil => rw [hr] at h; simp at h
  | cons a t =>
      rw [hr] at h
      have ha : a = c := by simpa using h
      have : c ∈ l.reverse := by rw [hr, ha]; exact List.mem_cons_self c t
      rwa [List.mem_reverse] at this

theorem head?_collapseWs_not_ws (t : List Char)
    (hh : ∀ c, t.head? = some c → isPyWs c = false) :
    ∀ c, (collapseWs t).head? = some c → isPyWs c = false := by
  intro c hc
  cases t with
  | nil => simp [collapseWs, collapseAux] at hc
  | cons a s =>
      have ha : isPyWs a = false := hh a rfl
      have hu : (collapseWs (a :: s)).head? = some a := head?_collapseAux_false rfl ha
      rw [hu] at hc
      exact (Option.some.inj hc) ▸ ha

/-- If the collapsed form of `t` does not end in a space — with `t`
whitespace-stripped at the front, free of trailing semicolons, and fixed by
lowercasing — then one more full normalization pass (lowercase, strip,
rstrip semicolons, collapse) leaves it unchanged. -/
theorem collapse_fix_of_t (t : List Char)
    (htHead : ∀ c, t.head? = some c → isPyWs c = false)
    (htLastSemi : ∀ c, t.getLast? = some c → (c == ';') = false)
    (htLow : ∀ c ∈ t, Char.toLower c = c)
    (hlast : (collapseWs t).getLast? ≠ some ' ') :
    collapseWs (rstripSemi (pyStripList ((collapseWs t).map Char.toLower)))
      = collapseWs t := by
  have h1 : (collapseWs t).map Char.toLower = collapseWs t := by
    apply map_toLower_id
    intro c hc
    rcases mem_collapseAux t false c hc with h' | h'
    · rw [h']
      decide
    · exact htLow c h'
  have husHead : ∀ c, (collapseWs t).head? = some c → isPyWs c = false :=
    head?_collapseWs_not_ws t htHead
  have husLast : ∀ c, (collapseWs t).getLast? = some c → isPyWs c = false := by
    intro c hc
    cases hwc : isPyWs c with
    | false => rfl
    | true =>
        have hcq := ws_mem_collapseAux t false c (mem_of_getLast? hc) hwc
        exact absurd (hcq ▸ hc) hlast
  have h2 : pyStripList (collapseWs t) = collapseWs t := by
    unfold pyStripList lstripWs rstripWs
    rw [dropWhile_eq_self_of_head _ _ husHead]
    rw [dropWhile_eq_self_of_head _ _
      (fun c hc => husLast c (by rwa [List.head?_reverse] at hc))]
    exact List.reverse_reverse _
  have h3 : rstripSemi (collapseWs t) = collapseWs t := by
    unfold rstripSemi
    rw [dropWhile_eq_self_of_head _ _ (fun c hc => by
      rw [List.head?_reverse] at hc
      rcases getLast?_collapseAux t false c hc with h' | h'
      · exact absurd (h' ▸ hc) hlast
      · exact htLastSemi c h')]
    exact List.reverse_reverse _
  rw [h1, h2, h3]
  exact collapseWs_idem t

/-- C4 counterexample: `normalize_sql` is not idempotent.  On `"a ;"` the
whitespace before the trailing semicolon survives as a trailing space of the
first normalization (`"a "`), which the second pass then strips (`"a"`). -/
theorem c4_counterexample :
    normalize_sql (normalize_sql "a ;") ≠ normalize_sql "a ;"
    ∧ normalize_sql "a ;" = "a " ∧ normalize_sql "a " = "a" := by
  refine ⟨?_, ?_, ?_⟩ <;> decide

/-- C4 (amended): `normalize_sql` (collapse whitespace runs, lowercase,
strip, drop trailing semicolons) is idempotent on every string whose
normalized form does not end in a space; the normalized form ends in a space
exactly in the non-idempotent cases, where whitespace immediately precedes
the trailing semicolon run. -/
theorem normalize_sql_idem (s : String)
    (h : (normalize_sql s).data.getLast? ≠ some ' ') :
    normalize_sql (normalize_sql s) = normalize_sql s := by
  have hw_head : ∀ c, (pyStripList (s.data.map Char.toLower)).head? = some c →
      isPyWs c = false := by
    intro c hc
    exact head?_dropWhile_false isPyWs _ c
      (head?_revDropRev isPyWs (lstripWs (s.data.map Char.toLower)) c hc)
  have ht_head : ∀ c,
      (rstripSemi (pyStripList (s.data.map Char.toLower))).head? = some c →
      isPyWs c = false := by
    intro c hc
    exact hw_head c (head?_revDropRev _ _ c hc)
  have ht_semi : ∀ c,
      (rstripSemi (pyStripList (s.data.map Char.toLower))).getLast? = some c →
      (c == ';') = false :=
    fun c hc => getLast?_revDropRev_not _ _ c hc
  have ht_low : ∀ c ∈ rstripSemi (pyStripList (s.data.map Char.toLower)),
      Char.toLower c = c := by
    intro c hc
    have h1 : c ∈ pyStripList (s.data.map Char.toLower) := mem_revDropRev _ _ c hc
    have h2 : c ∈ lstripWs (s.data.map Char.toLower) := mem_revDropRev _ _ c h1
    have h3 : c ∈ s.data.map Char.toLower := List.dropWhile_subset _ h2
    rw [List.mem_map] at h3
    obtain ⟨c0, _, hc0⟩ := h3
    rw [← hc0]
    exact toLower_idem c0
  exact congrArg String.mk
    (collapse_fix_of_t (rstripSemi (pyStripList (s.data.map Char.toLower)))
      ht_head ht_semi ht_low h)

/-- Witness for C4 at `"SELECT 1;"`, whose normalized form `"select 1"` does
not end in a space. -/
theorem c4_witness :
    (normalize_sql "SELECT 1;").data.getLast? ≠ some ' '
    ∧ normalize_sql (normalize_sql "SELECT 1;") = normalize_sql "SELECT 1;" :=
  ⟨by decide, normalize_sql_idem "SELECT 1;" (by decide)⟩

end SqlCoach
